import Mathlib

/-!
Verification development for the governance core of the `hoclaptrinh`
ambient-music generator (Python sources under `src/`).

Modelling conventions, used consistently below:
* Python `int` is `ℤ`; Python `float` is modelled exactly as `ℚ`
  (decimal literals such as `0.15` are exact rationals, matching the
  Python source text; representation error of binary floats is ignored,
  and no claim below hinges on it).
* `int(x)` on a float is truncation toward zero (`pyTrunc`); Python 3
  `round` is round-half-to-even (`pyRound`); `//` and `%` on ints are
  floor division and floor modulus (`Int.fdiv` / `Int.fmod`).
* Python dicts keyed by strings are total functions `String → Option _`
  or `String → _` with an explicit default, and in-place mutation is
  explicit state passing.
* Transcendental float functions (`math.log2`, `math.exp`, `2.0 ** x`)
  have no exact rational counterpart; they are abstracted as oracle
  parameters, and every theorem about code that touches them is
  quantified over the oracle.
* Duck-typed optional methods (`hasattr` probes, `try/except
  AttributeError` style dispatch) are modelled as `Option` function
  fields: `none` means the object does not define the method, so the
  Python call site raises (`Except.error`) or takes its fallback branch,
  exactly as the source does.
-/

/-- Python `str.lower()` (ASCII), modelled characterwise so it reduces in the kernel
(`String.toLower` is defined through `String.mapAux`, which does not). -/
def py_lower (s : String) : String := ⟨s.data.map Char.toLower⟩

/-- Python `str.upper()` (ASCII), modelled characterwise. -/
def py_upper (s : String) : String := ⟨s.data.map Char.toUpper⟩

/-- Python `str.strip()`: drop leading and trailing whitespace. -/
def py_strip (s : String) : String :=
  ⟨((s.data.dropWhile Char.isWhitespace).reverse.dropWhile Char.isWhitespace).reverse⟩

/-- Truncation toward zero: Python `int()` applied to a float, modelled on `ℚ`. -/
def pyTrunc (q : ℚ) : ℤ := if 0 ≤ q then ⌊q⌋ else ⌈q⌉

/-- Python 3 `round()` to an integer: round half to even (banker's rounding), on `ℚ`. -/
def pyRound (q : ℚ) : ℤ :=
  let f := ⌊q⌋
  let r := q - (f : ℚ)
  if r < 1/2 then f else if 1/2 < r then f + 1 else if f % 2 = 0 then f else f + 1

/-! ## RegisterManager (src/core/register_manager.py) -/

/-- Safe pitch band for one layer (`RegisterBand` dataclass, register_manager.py). -/
structure RegisterBand where
  min_midi : ℤ
  max_midi : ℤ

/-- Model of `RegisterBand.shifted`: move both ends by `semitones` (identity when zero). -/
def RegisterBand.shifted (b : RegisterBand) (semitones : ℤ) : RegisterBand :=
  if semitones = 0 then b else ⟨b.min_midi + semitones, b.max_midi + semitones⟩

/-- Model of `RegisterManager.DEFAULT_BANDS`: the class-level dict of default bands. -/
def DEFAULT_BANDS : String → Option RegisterBand
  | "DRONE" => some ⟨36, 52⟩
  | "BASS" => some ⟨36, 60⟩
  | "HARM" => some ⟨48, 76⟩
  | "MELODY" => some ⟨60, 96⟩
  | "CHIME" => some ⟨65, 100⟩
  | "AIR" => some ⟨60, 100⟩
  | "HANDPAN" => some ⟨60, 88⟩
  | "PULSE" => some ⟨48, 76⟩
  | "NATURE" => some ⟨48, 88⟩
  | "VOCAL" => some ⟨48, 80⟩
  | "BINAURAL" => some ⟨24, 48⟩
  | "GENERIC" => some ⟨36, 96⟩
  | _ => none

/-- Model of `RegisterManager.LAYER_ALIAS`: legacy layer-name aliases. -/
def LAYER_ALIAS : String → Option String
  | "HARM_MAIN" => some "HARM"
  | "HARM_LAYER" => some "HARM"
  | "PAD" => some "HARM"
  | "STRINGS" => some "HARM"
  | "MELODY_MAIN" => some "MELODY"
  | "LEAD" => some "MELODY"
  | "FLUTE" => some "MELODY"
  | "DRONE_LOW" => some "DRONE"
  | "DRONE_HIGH" => some "DRONE"
  | "BASS_MAIN" => some "BASS"
  | "KICK_BASS" => some "BASS"
  | "PULSE_MAIN" => some "PULSE"
  | "FX" => some "NATURE"
  | "AMBIENT" => some "NATURE"
  | _ => none

/-- Model of `RegisterManager._normalize_layer_name`: upper-case, alias mapping, `"GENERIC"` fallback. -/
def normalize_layer_name (layer_name : String) : String :=
  if layer_name = "" then "GENERIC"
  else
    let nm := py_upper (py_strip layer_name)
    let nm := (LAYER_ALIAS nm).getD nm
    if (DEFAULT_BANDS nm).isSome then nm else "GENERIC"

/-- Model of `RegisterManager._extract_global_shift_semitones`, after the tuning plan has delivered
an integer shift (`none` models a missing plan); the result is clamped to `[-12, 12]`. -/
def extract_global_shift (plan_shift : Option ℤ) : ℤ :=
  match plan_shift with
  | none => 0
  | some s => if s < -12 then -12 else if 12 < s then 12 else s

/-- One entry of `user_options["register_manager"]["register_override"]`: a layer name and
its `min` / `max` values (`none` models a missing or non-integer entry, which the
source skips via its `try/except`). -/
def apply_band_override (bands : String → Option RegisterBand)
    (ov : String × Option ℤ × Option ℤ) : String → Option RegisterBand :=
  match ov.2.1, ov.2.2 with
  | some mn, some mx =>
    let lo := if mx < mn then mx else mn
    let hi := if mx < mn then mn else mx
    fun k => if k = normalize_layer_name ov.1 then some ⟨lo, hi⟩ else bands k
  | _, _ => bands

/-- Model of `RegisterManager._build_bands_with_shift_and_override`: default bands shifted by the
global shift, then per-layer overrides applied in order. -/
def build_bands (shift : ℤ) (overrides : List (String × Option ℤ × Option ℤ)) :
    String → Option RegisterBand :=
  overrides.foldl apply_band_override
    (fun name => (DEFAULT_BANDS name).map (fun b => b.shifted shift))

/-- State of a constructed `RegisterManager`. -/
structure RegisterManagerM where
  global_shift : ℤ
  bands : String → Option RegisterBand

/-- Model of `RegisterManager.__init__`: read the global shift once, then build the band table. -/
def mk_register_manager (plan_shift : Option ℤ)
    (overrides : List (String × Option ℤ × Option ℤ)) : RegisterManagerM :=
  let s := extract_global_shift plan_shift
  ⟨s, build_bands s overrides⟩

/-- Model of `RegisterManager.get_band`. -/
def RegisterManagerM.get_band (rm : RegisterManagerM) (layer_name : String) : ℤ × ℤ :=
  match rm.bands (normalize_layer_name layer_name) with
  | some b => (b.min_midi, b.max_midi)
  | none =>
    let g := (RegisterBand.mk 36 96).shifted rm.global_shift
    (g.min_midi, g.max_midi)

/-- Model of `RegisterManager.constrain_pitch`. -/
def RegisterManagerM.constrain_pitch (rm : RegisterManagerM) (layer_name : String)
    (pitch : ℤ) : ℤ :=
  let b : RegisterBand :=
    match rm.bands (normalize_layer_name layer_name) with
    | some b => b
    | none => (RegisterBand.mk 36 96).shifted rm.global_shift
  if pitch < b.min_midi then b.min_midi
  else if b.max_midi < pitch then b.max_midi
  else pitch

/-! ## TempoMap view (src/core/tempo_breath.py) -/

/-- The slice of `TempoMap` that the governance core reads: `ppq`,
`base_tempo`/`base_bpm`, `breath_cycle_bars`, and the optional
`get_ticks_for_duration` method (probed with `hasattr` by
`StructureBuilder._seconds_to_ticks`; the real `TempoMap` defines it, a bare
stub would not). -/
structure TempoMapM where
  ppq : ℤ := 480
  base_tempo : ℚ := 60
  breath_cycle_bars : ℚ := 2
  ticks_for_duration : Option (ℤ → ℤ) := none

/-- Default `TempoMap` stand-in with the fallback values used throughout
safety_filter.py (`ppq=480`, `base_tempo=60.0`, `breath_cycle_bars=2.0`). -/
def defaultTempoMap : TempoMapM := {}

/-- Model of `int(getattr(tempo_map, "ppq", 480) or 480)`: a falsy (zero) ppq falls back to 480. -/
def tm_ppq (tm : TempoMapM) : ℤ := if tm.ppq = 0 then 480 else tm.ppq

/-- Model of `float(getattr(tempo_map, "breath_cycle_bars", 2.0) or 2.0)` as read by safety_filter.py. -/
def tm_cycle_sf (tm : TempoMapM) : ℚ :=
  if tm.breath_cycle_bars = 0 then 2 else tm.breath_cycle_bars

/-! ## SafetyFilter (src/core/safety_filter.py) -/

/-- Model of `SafetyConfig` dataclass with its default values. -/
structure SafetyConfig where
  pitch_min : ℤ := 0
  pitch_max : ℤ := 127
  vel_min : ℤ := 10
  vel_max : ℤ := 120
  vel_soft_ceiling : ℤ := 105
  vel_step_up_max : ℤ := 35
  vel_step_down_max : ℤ := 80
  density_window_breaths : ℤ := 2
  density_soft_limit : ℤ := 16
  density_hard_limit : ℤ := 32
  density_drop_excess_notes : Bool := true
  shock_vel_jump_threshold : ℤ := 40
  shock_time_window_beats : ℚ := 1
  shock_damp_factor : ℚ := 0.6
  mix_energy_window_bars : ℚ := 0.5
  mix_energy_max : ℚ := 12
  mix_energy_soften_ratio : ℚ := 0.65

/-- The configuration `SafetyFilter._build_config` produces from empty `user_options`. -/
def defaultSafetyConfig : SafetyConfig := {}

/-- Model of `PitchSafety.enforce_pitch` (the `pitch is None` branch cannot arise for an `ℤ` input). -/
def enforce_pitch (cfg : SafetyConfig) (pitch : ℤ) : ℤ :=
  if pitch < cfg.pitch_min then cfg.pitch_min
  else if cfg.pitch_max < pitch then cfg.pitch_max
  else pitch

/-- Model of `VelocitySafety.enforce_velocity`: zero for non-positive input, hard clamp,
Zen-safe ceiling, then soft-knee compression above `vel_soft_ceiling`. -/
def enforce_velocity (cfg : SafetyConfig) (velocity : ℤ) : ℤ :=
  if velocity ≤ 0 then 0
  else
    let v := velocity
    let v := if v < 1 then 1 else v
    let v := if 127 < v then 127 else v
    let v := if cfg.vel_max < v then cfg.vel_max else v
    let v :=
      if cfg.vel_soft_ceiling < v then
        let over := v - cfg.vel_soft_ceiling
        let span := max 1 (cfg.vel_max - cfg.vel_soft_ceiling)
        let r : ℚ := (over : ℚ) / (span : ℚ)
        pyRound ((cfg.vel_soft_ceiling : ℚ) + (over : ℚ) * (1 - 0.5 * r))
      else v
    max 0 (min 127 v)

/-- Model of `DensitySafety.__init__`: ticks of one breath, `int(ppq * 4.0 * cycle_bars)`. -/
def ticks_per_breath (tm : TempoMapM) : ℤ :=
  pyTrunc ((tm_ppq tm : ℚ) * 4 * tm_cycle_sf tm)

/-- Model of `DensitySafety.__init__`: the density window in ticks. -/
def density_window_ticks (cfg : SafetyConfig) (tm : TempoMapM) : ℤ :=
  max (tm_ppq tm) (ticks_per_breath tm * max 1 cfg.density_window_breaths)

/-- Model of `DensitySafety._prune_old`: drop the leading events older than `tick - window`. -/
def density_prune (window : ℤ) (events : List ℤ) (tick : ℤ) : List ℤ :=
  events.dropWhile (fun t => t < tick - window)

/-- Model of `DensitySafety.check_density`: returns `(allow, velocity_scale, count)` along with the
pruned per-layer event list (the source prunes `self._events[layer]` in place). -/
def check_density (cfg : SafetyConfig) (window : ℤ) (events : List ℤ) (tick : ℤ) :
    Bool × ℚ × ℤ × List ℤ :=
  let pruned := density_prune window events tick
  let count : ℤ := pruned.length
  if count ≤ cfg.density_soft_limit then (true, 1, count, pruned)
  else if cfg.density_hard_limit ≤ count then (false, 0.3, count, pruned)
  else
    let span : ℤ := max 1 (cfg.density_hard_limit - cfg.density_soft_limit)
    let over : ℤ := count - cfg.density_soft_limit
    let r : ℚ := (over : ℚ) / (span : ℚ)
    (true, max 0.4 (1 - 0.6 * r), count, pruned)

/-- Model of `ShockGuard.__init__`: `int(ppq * shock_time_window_beats)`. -/
def shock_window_ticks (cfg : SafetyConfig) (tm : TempoMapM) : ℤ :=
  pyTrunc ((tm_ppq tm : ℚ) * cfg.shock_time_window_beats)

/-- Model of `ShockGuard.enforce`: returns `(safe_velocity, is_shock, new last record)`; the stored
record is always replaced by `(tick, clamped velocity)`. -/
def shock_enforce (cfg : SafetyConfig) (window : ℤ) (last : Option (ℤ × ℤ))
    (velocity tick : ℤ) : ℤ × Bool × (ℤ × ℤ) :=
  let vs : ℤ × Bool :=
    match last with
    | none => (velocity, false)
    | some (last_tick, last_vel) =>
      if |tick - last_tick| ≤ window ∧ cfg.shock_vel_jump_threshold ≤ |velocity - last_vel| then
        (pyRound ((velocity : ℚ) * cfg.shock_damp_factor), true)
      else (velocity, false)
  (max 0 (min 127 vs.1), vs.2, (tick, max 0 (min 127 vs.1)))

/-- Model of `MixEnergyGuard.__init__`: `int(mix_energy_window_bars * 4.0 * ppq)`. -/
def mix_window_ticks (cfg : SafetyConfig) (tm : TempoMapM) : ℤ :=
  pyTrunc (cfg.mix_energy_window_bars * 4 * (tm_ppq tm : ℚ))

/-- Model of `MixEnergyGuard.enforce`: prune the rolling window, compare the projected energy with
the ceiling, soften if above, and append the new event. Returns
`(safe_velocity, softened, new event list)`. -/
def mix_enforce (cfg : SafetyConfig) (window : ℤ) (events : List (ℤ × ℚ))
    (velocity tick : ℤ) : ℤ × Bool × List (ℤ × ℚ) :=
  if cfg.mix_energy_window_bars ≤ 0 ∨ cfg.mix_energy_max ≤ 0 then (velocity, false, events)
  else
    let pruned := events.dropWhile (fun e => e.1 < tick - window)
    let current_energy := (pruned.map Prod.snd).sum
    let energy_norm : ℚ := max 0 (min 1 ((velocity : ℚ) / 127))
    let projected := current_energy + energy_norm
    if cfg.mix_energy_max < projected then
      let v := max 8 (pyRound ((velocity : ℚ) * cfg.mix_energy_soften_ratio))
      let energy_norm : ℚ := max 0 (min 1 ((v : ℚ) / 127))
      (v, true, pruned ++ [(tick, energy_norm)])
    else (velocity, false, pruned ++ [(tick, energy_norm)])

/-- Metadata packet passed to `TimbreSafety.adjust` (`phase_energy` defaults to `0.5`,
`section_type` to the empty string, as in the source's `meta.get` calls). -/
structure NoteMeta where
  phase_energy : ℚ := 0.5
  section_type : String := ""

/-- Model of `TimbreSafety.adjust`: soften `air` at high phase energy and `chime` in breakdown-like
sections, then clamp into `[vel_min, vel_max]`; with no meta only the clamp applies. -/
def timbre_adjust (cfg : SafetyConfig) (layer : String) (velocity : ℤ)
    (meta : Option NoteMeta) : ℤ :=
  match meta with
  | none => max cfg.vel_min (min cfg.vel_max velocity)
  | some m =>
    let v := velocity
    let v := if layer = "air" ∧ 0.8 < m.phase_energy then pyTrunc ((v : ℚ) * 0.8) else v
    let st := py_lower m.section_type
    let v :=
      if layer = "chime" ∧ (st = "breakdown" ∨ st = "silent_breakdown" ∨ st = "bridge") then
        pyTrunc ((v : ℚ) * 0.7)
      else v
    max cfg.vel_min (min cfg.vel_max v)

/-- The only interface `RegisterSafety.enforce_register` uses on its register manager:
the duck-typed method `get_layer_range(layer, tick)`. The field is `none` when the
object does not define such a method, in which case the Python attribute lookup
raises `AttributeError`. -/
structure RegisterProvider where
  get_layer_range : Option (String → ℤ → ℤ × ℤ)

/-- Provider view of the real `RegisterManager` (register_manager.py): it defines
`get_band`, `constrain_pitch`, `safe_pitch` and `clamp_pitch`, but **no**
`get_layer_range`, so the method slot is `none`. -/
def real_register_provider (_rm : RegisterManagerM) : RegisterProvider := ⟨none⟩

/-- Provider view of the ImportError fallback stub `RegisterManager` defined at the top
of safety_filter.py, whose `get_layer_range` always returns `(21, 108)`. -/
def stub_register_provider : RegisterProvider := ⟨some (fun _ _ => (21, 108))⟩

/-- Model of `RegisterSafety.enforce_register`: call `get_layer_range`, repair an inverted band,
clamp the pitch into it; `Except.error` models the `AttributeError` raised when the
register manager lacks the method. -/
def enforce_register (rp : RegisterProvider) (layer : String) (pitch tick : ℤ) :
    Except Unit (ℤ × ℤ × ℤ) :=
  match rp.get_layer_range with
  | none => .error ()
  | some f =>
    let lh := f layer tick
    let lo := if lh.2 < lh.1 then min lh.1 lh.2 else lh.1
    let hi := if lh.2 < lh.1 then max lh.1 lh.2 else lh.2
    let p := pitch
    let p := if p < lo then lo else p
    let p := if hi < p then hi else p
    .ok (p, lo, hi)

/-- Mutable state of a `SafetyFilter`: per-layer last accepted velocity, the
`DensitySafety` per-layer event lists, the `ShockGuard` per-layer last records, and the
`MixEnergyGuard` rolling window. -/
structure SafetyState where
  last_velocity : String → Option ℤ
  density_events : String → List ℤ
  shock_last : String → Option (ℤ × ℤ)
  mix_events : List (ℤ × ℚ)

/-- Freshly constructed (or `reset_state`-ed) `SafetyFilter` state. -/
def initSafetyState : SafetyState :=
  ⟨fun _ => none, fun _ => [], fun _ => none, []⟩

/-- Model of `SafetyFilter.apply_note`: the full pipeline. Steps, in source order: pitch clamp,
register clamp (may raise, see `enforce_register`), velocity clamp, per-layer step
limit, shock guard, density check, timbre adjustment, mix-energy guard, the final
allow decision, and the state updates (shock and mix always; density event append and
last-velocity only when allowed; density pruning always, inside `check_density`).
The returned `info` dict and the debug print are diagnostics only and are not
modelled. -/
def apply_note (cfg : SafetyConfig) (tm : TempoMapM) (rp : RegisterProvider)
    (st : SafetyState) (layer : String) (pitch velocity tick : ℤ)
    (meta : Option NoteMeta) : Except Unit (ℤ × ℤ × Bool × SafetyState) :=
  let p0 := enforce_pitch cfg pitch
  match enforce_register rp layer p0 tick with
  | .error e => .error e
  | .ok reg =>
    let p1 := reg.1
    let v0 := enforce_velocity cfg velocity
    let v0 :=
      match st.last_velocity layer with
      | none => v0
      | some last_v =>
        let delta := v0 - last_v
        if cfg.vel_step_up_max < delta then last_v + cfg.vel_step_up_max
        else if delta < -cfg.vel_step_down_max then
          max cfg.vel_min (last_v - cfg.vel_step_down_max)
        else v0
    let sres := shock_enforce cfg (shock_window_ticks cfg tm) (st.shock_last layer) v0 tick
    let v1 := sres.1
    let dres := check_density cfg (density_window_ticks cfg tm) (st.density_events layer) tick
    let allow_density := dres.1
    let vel_scale_density := dres.2.1
    let pruned := dres.2.2.2
    let v2 := pyRound ((v1 : ℚ) * vel_scale_density)
    let v3 := timbre_adjust cfg layer v2 meta
    let mres := mix_enforce cfg (mix_window_ticks cfg tm) st.mix_events v3 tick
    let v4 := mres.1
    let allow : Bool := ¬ (v4 ≤ 0)
    let allow : Bool :=
      if allow_density then allow
      else if cfg.density_drop_excess_notes then false
      else if v4 < cfg.vel_min then false
      else allow
    let final_vel := if allow ∧ v4 < cfg.vel_min then cfg.vel_min else v4
    let st' : SafetyState :=
      { last_velocity :=
          if allow then (fun k => if k = layer then some final_vel else st.last_velocity k)
          else st.last_velocity
        density_events :=
          if allow then (fun k => if k = layer then pruned ++ [tick] else st.density_events k)
          else (fun k => if k = layer then pruned else st.density_events k)
        shock_last := fun k => if k = layer then some sres.2.2 else st.shock_last k
        mix_events := mres.2.2 }
    .ok (p1, max 0 (min 127 final_vel), allow, st')

/-- Pitch component of an `apply_note` result, when it returned normally. -/
def result_pitch (r : Except Unit (ℤ × ℤ × Bool × SafetyState)) : Option ℤ :=
  match r with
  | .ok x => some x.1
  | .error _ => none

/-- Velocity component of an `apply_note` result, when it returned normally. -/
def result_vel (r : Except Unit (ℤ × ℤ × Bool × SafetyState)) : Option ℤ :=
  match r with
  | .ok x => some x.2.1
  | .error _ => none

/-- Allow flag of an `apply_note` result, when it returned normally. -/
def result_allow (r : Except Unit (ℤ × ℤ × Bool × SafetyState)) : Option Bool :=
  match r with
  | .ok x => some x.2.2.1
  | .error _ => none

/-- Post-state of an `apply_note` result, when it returned normally. -/
def result_state (r : Except Unit (ℤ × ℤ × Bool × SafetyState)) : Option SafetyState :=
  match r with
  | .ok x => some x.2.2.2
  | .error _ => none

/-- Number of events a future `check_density` call at `tick` would see in `events`. -/
def density_count_at (window : ℤ) (events : List ℤ) (tick : ℤ) : ℕ :=
  (density_prune window events tick).length

/-! ## BreathSyncManager (src/core/breath_sync.py) -/

/-- Model of `BreathPhaseConfig` dataclass with its defaults. -/
structure BreathPhaseConfig where
  valley_center : ℚ := 0.15
  peak_center : ℚ := 0.50
  end_center : ℚ := 0.85
  width : ℚ := 0.30
  max_shift_ratio : ℚ := 0.25

/-- A constructed `BreathSyncManager`: its derived breath length, phase configuration,
slot division, enabled flag, and the per-layer mode rules (the `default_rule` is
`"free"`). -/
structure BreathSyncM where
  breath_length_ticks : ℤ
  pcfg : BreathPhaseConfig := {}
  slot_division_per_breath : ℤ := 64
  enabled : Bool := true
  layer_rules : String → Option String
  default_mode : String := "free"

/-- Model of `BreathSyncManager._build_default_config().layer_rules`. -/
def default_layer_rules : String → Option String
  | "pulse" => some "peak"
  | "melody" => some "valley"
  | "chime" => some "end"
  | "air" => some "follow"
  | "drone" => some "follow"
  | "harm" => some "follow"
  | "binaural" => some "follow"
  | _ => none

/-- Model of `BreathSyncManager.__init__` with the default config:
`breath_length_ticks = max(1, int(breath_cycle_bars * 4 * ppq))`. Note this reads
`getattr(tempo_map, "ppq", 480)` without a falsy guard and
`float(getattr(..., 2.0) or 2.0)` for the cycle. -/
def mk_breath_sync (tm : TempoMapM) : BreathSyncM :=
  { breath_length_ticks :=
      max 1 (pyTrunc ((if tm.breath_cycle_bars = 0 then 2 else tm.breath_cycle_bars)
        * 4 * (tm.ppq : ℚ)))
    layer_rules := default_layer_rules }

/-- Slot-allocator state: `(breath_index, phase_tag) -> count`, missing keys read as 0. -/
structure BreathSyncState where
  slots_used : ℤ × String → ℕ

/-- Fresh (or `reset_state`-ed) slot allocator. -/
def initBreathSyncState : BreathSyncState := ⟨fun _ => 0⟩

/-- Model of `BreathSyncManager.get_breath_position`. -/
def get_breath_position (m : BreathSyncM) (tick : ℤ) : ℤ × ℚ :=
  let bl := m.breath_length_ticks
  if bl ≤ 0 then (0, 0)
  else
    let tick := if tick < 0 then 0 else tick
    (tick.fdiv bl, ((tick.fmod bl : ℤ) : ℚ) / (bl : ℚ))

/-- Model of `BreathSyncManager.get_phase_tag`. -/
def get_phase_tag (m : BreathSyncM) (phase : ℚ) : String :=
  let w := m.pcfg.width * 0.5
  if m.pcfg.valley_center - w ≤ phase ∧ phase ≤ m.pcfg.valley_center + w then "valley"
  else if m.pcfg.peak_center - w ≤ phase ∧ phase ≤ m.pcfg.peak_center + w then "peak"
  else if m.pcfg.end_center - w ≤ phase ∧ phase ≤ m.pcfg.end_center + w then "end"
  else "free"

/-- Model of `BreathSyncManager._get_target_phase`. -/
def get_target_phase (m : BreathSyncM) (mode : String) : ℚ :=
  if mode = "valley" then m.pcfg.valley_center
  else if mode = "peak" then m.pcfg.peak_center
  else if mode = "end" then m.pcfg.end_center
  else 0

/-- Model of `BreathSyncManager._allocate_slot`: add `count * slot_size` to the base tick and bump
the slot counter. Returns the offset tick and the new state. -/
def allocate_slot (m : BreathSyncM) (st : BreathSyncState) (breath_index : ℤ)
    (phase_tag : String) (base_tick : ℤ) : ℤ × BreathSyncState :=
  let count := st.slots_used (breath_index, phase_tag)
  let dv := max 1 m.slot_division_per_breath
  let slot_size := max 1 (pyTrunc ((m.breath_length_ticks : ℚ) / (dv : ℚ)))
  let offset := (count : ℤ) * slot_size
  (base_tick + offset,
    ⟨fun k => if k = (breath_index, phase_tag) then count + 1 else st.slots_used k⟩)

/-- Model of `BreathSyncManager._align_tick_within_breath`: shift toward the target phase, clamp
the shift to `max_shift_ratio` of one breath, then apply the slot allocator and floor
the result at 0. -/
def align_tick_within_breath (m : BreathSyncM) (st : BreathSyncState)
    (original_tick breath_index : ℤ) (target_phase : ℚ) (phase_tag : String) :
    ℤ × BreathSyncState :=
  let bl := m.breath_length_ticks
  let max_shift_ticks := pyTrunc (m.pcfg.max_shift_ratio * (bl : ℚ))
  let target_pos_tick := pyTrunc (target_phase * (bl : ℚ))
  let base_tick := breath_index * bl + target_pos_tick
  let delta := base_tick - original_tick
  let base_tick :=
    if max_shift_ticks < |delta| then
      if 0 < delta then original_tick + max_shift_ticks else original_tick - max_shift_ticks
    else base_tick
  let (slot_tick, st') := allocate_slot m st breath_index phase_tag base_tick
  (if slot_tick < 0 then 0 else slot_tick, st')

/-- Model of `BreathSyncManager.align_note`: returns `((new_tick, phase_tag, breath_index), state)`.
For modes `follow`/`free` the tick is unchanged; for `valley`/`peak`/`end` the tick is
aligned within the breath and the slot allocator state advances. -/
def align_note (m : BreathSyncM) (st : BreathSyncState) (layer : String)
    (start_tick : ℤ) (prefer_mode : Option String) :
    (ℤ × String × ℤ) × BreathSyncState :=
  if ¬ m.enabled then
    let bp := get_breath_position m start_tick
    ((start_tick, get_phase_tag m bp.2, bp.1), st)
  else
    let rule_mode := (m.layer_rules layer).getD m.default_mode
    let effective_mode :=
      match prefer_mode with
      | some pm => if pm = "free" then "free" else pm
      | none => rule_mode
    let bp := get_breath_position m start_tick
    let breath_index := bp.1
    let phase_tag := get_phase_tag m bp.2
    if effective_mode = "free" ∨ effective_mode = "follow" then
      ((start_tick, phase_tag, breath_index), st)
    else
      let target_phase := get_target_phase m effective_mode
      let (new_tick, st') :=
        align_tick_within_breath m st start_tick breath_index target_phase effective_mode
      ((new_tick, effective_mode, breath_index), st')

/-- Repeated `align_note` calls with identical arguments: `align_note_times n` is the
result of the `(n+1)`-st call, threading the slot-allocator state. -/
def align_note_times (m : BreathSyncM) (layer : String) (start_tick : ℤ)
    (prefer_mode : Option String) : ℕ → (ℤ × String × ℤ) × BreathSyncState
  | 0 => align_note m initBreathSyncState layer start_tick prefer_mode
  | n + 1 => align_note m (align_note_times m layer start_tick prefer_mode n).2
      layer start_tick prefer_mode

/-! ## ZenArcMatrix (src/core/zen_arc_matrix.py) -/

/-- Model of `ZenPhaseDefinition` dataclass. -/
structure ZenPhaseDef where
  name : String
  display_name : String
  index : ℤ
  start_ratio : ℚ
  end_ratio : ℚ
  base_energy : ℚ
  movement_bias : ℚ
  brightness_bias : ℚ
  tension_bias : ℚ

/-- Model of `ZenArcMatrix._build_default_phases`: the five default phases. -/
def default_zen_phases : List ZenPhaseDef :=
  [ ⟨"grounding", "Grounding", 1, 0.00, 0.18, 0.25, 0.15, 0.20, 0.05⟩,
    ⟨"immersion", "Immersion", 2, 0.18, 0.42, 0.55, 0.40, 0.40, 0.20⟩,
    ⟨"breakdown", "Breakdown", 3, 0.42, 0.58, 0.20, 0.10, 0.25, 0.10⟩,
    ⟨"awakening", "Awakening", 4, 0.58, 0.82, 0.60, 0.55, 0.55, 0.25⟩,
    ⟨"integration", "Integration", 5, 0.82, 1.00, 0.30, 0.20, 0.30, 0.10⟩ ]

/-- Model of `ZenArcMatrix.get_phase_by_ratio`: clamp the ratio to `[0,1]`, return the first phase
whose `[start_ratio, end_ratio)` contains it, else the last phase. (`self.phases[-1]`
on an empty phase list would raise in Python; every constructed matrix has five
phases, so the `getLastD` fallback value is unreachable in the modelled runs.) -/
def get_phase_by_ratio (phases : List ZenPhaseDef) (progress_ratio : ℚ) : ZenPhaseDef :=
  let r := max 0 (min 1 progress_ratio)
  match phases.find? (fun p => p.start_ratio ≤ r ∧ r < p.end_ratio) with
  | some p => p
  | none => phases.getLastD ⟨"integration", "Integration", 5, 0.82, 1, 0.30, 0.20, 0.30, 0.10⟩

/-! ## StructureBuilder (src/core/structure_builder.py) -/

/-- Model of `Segment` dataclass (tick fields plus the Zen Arc tagging fields). -/
structure Segment where
  start_tick : ℤ
  end_tick : ℤ
  duration_ticks : ℤ
  chord_name : String
  label : String
  section_type : String
  energy_bias : ℚ
  phase_name : String := "grounding"
  phase_index : ℤ := 1
  phase_energy : ℚ := 0
  movement_hint : ℚ := 0.5
  stillness_hint : ℚ := 0.5
  is_breakdown : Bool := false

/-- Model of `StructureBuilder.SECTION_ENERGY` with its `.get(sec, 0.5)` default. -/
def section_energy (sec : String) : ℚ :=
  match sec with
  | "Intro" => 0.2
  | "Verse" => 0.4
  | "Chorus" => 0.65
  | "Bridge" => 0.55
  | "Outro" => 0.15
  | "Zen" => 0.4
  | _ => 0.5

/-- One progression token: either a bare chord string or a `(chord, section)` pair, as
accepted by `StructureBuilder._build_from_progression`. -/
inductive ProgItem where
  | bare (chord : String)
  | pair (chord sec : String)

/-- Unpacking of a progression item: a bare chord gets section `"Verse"`. -/
def prog_item_parts : ProgItem → String × String
  | .bare c => (c, "Verse")
  | .pair c s => (c, s)

/-- Model of `StructureBuilder._bars_to_ticks`: `int(ppq * 4.0 * bars)`. -/
def bars_to_ticks (ppq : ℤ) (bars : ℚ) : ℤ :=
  pyTrunc ((ppq : ℚ) * 4 * bars)

/-- Duration taken by the loop body of `_build_from_progression` at `current_tick`:
the per-chord duration, truncated so it does not run past `total_ticks`. -/
def sb_dur (dur0 total current : ℤ) : ℤ :=
  if total < current + dur0 then total - current else dur0

/-- The `while current_tick < total_ticks` loop of
`StructureBuilder._build_from_progression`, for a non-empty token list. -/
def sb_loop (cm : String → Option String) (dur0 : ℤ) (data : List ProgItem)
    (total current : ℤ) (idx : ℕ) : List Segment :=
  if h : current < total then
    let item := data.getD (idx % data.length) (ProgItem.bare "")
    let cs := prog_item_parts item
    let c_name := py_strip cs.1
    let c_name := (cm c_name).getD c_name
    if h2 : sb_dur dur0 total current ≤ 0 then []
    else
      let dur := sb_dur dur0 total current
      { start_tick := current, end_tick := current + dur, duration_ticks := dur,
        chord_name := c_name, label := cs.2 ++ " " ++ toString idx,
        section_type := cs.2, energy_bias := section_energy cs.2 } ::
      sb_loop cm dur0 data total (current + dur) (idx + 1)
  else []
termination_by (total - current).toNat
decreasing_by
  simp only [sb_dur] at h2 ⊢
  split
  · omega
  · rename_i hc
    rw [if_neg hc] at h2
    omega

/-- Per-chord duration computed by `_build_from_progression` before the loop: derive
`breaths_per_chord` (auto default 4, custom default 1; `breaths_raw` is the user's
`breaths_per_chord`/`harmonic_pace_bars` value once `int()` has succeeded, `none`
modelling an absent or non-integer setting), multiply by the breath cycle (`or 1.0`
on a falsy value), and turn bars into ticks. -/
def sb_dur0 (ppq : ℤ) (cycle_bars : ℚ) (breaths_raw : Option ℤ) (is_auto : Bool) : ℤ :=
  let default_breaths : ℤ := if is_auto then 4 else 1
  let breaths := breaths_raw.getD default_breaths
  let breaths := if breaths < 1 then 1 else breaths
  let cycle := if cycle_bars = 0 then 1 else cycle_bars
  bars_to_ticks ppq ((breaths : ℚ) * cycle)

/-- Model of `StructureBuilder._build_from_progression`: compute the per-chord duration and run
the segment loop over the token list. -/
def build_from_progression (cm : String → Option String) (ppq : ℤ) (cycle_bars : ℚ)
    (breaths_raw : Option ℤ) (is_auto : Bool) (data : List ProgItem)
    (total_ticks : ℤ) : List Segment :=
  let dur0 := sb_dur0 ppq cycle_bars breaths_raw is_auto
  if data.length = 0 then [] else sb_loop cm dur0 data total_ticks 0 0

/-- Model of `StructureBuilder._apply_zen_arc`: tag every segment with the phase at its midpoint
ratio and recombine its energy bias (modelled as a map; the source mutates the
segments in place). -/
def apply_zen_arc (zen_phases : List ZenPhaseDef) (total_ticks : ℤ)
    (segments : List Segment) : List Segment :=
  if total_ticks ≤ 0 ∨ segments.isEmpty then segments
  else
    segments.map (fun seg =>
      let center_tick : ℤ := seg.start_tick + seg.duration_ticks.fdiv 2
      let ratio : ℚ := max 0 (min 1 ((center_tick : ℚ) / (total_ticks : ℚ)))
      let ph := get_phase_by_ratio zen_phases ratio
      let mv := max 0 (min 1 ph.movement_bias)
      let combined := 0.5 * seg.energy_bias + 0.5 * ph.base_energy
      let combined :=
        if ph.name = "awakening" then combined * 1.1
        else if ph.name = "breakdown" then combined * 0.7
        else combined
      { seg with
        phase_name := ph.name, phase_index := ph.index, phase_energy := ph.base_energy,
        movement_hint := mv, stillness_hint := max 0 (min 1 (1 - mv)),
        is_breakdown := decide (ph.name = "breakdown"),
        energy_bias := max 0.1 (min 1 combined) })

/-- Model of `StructureBuilder._seconds_to_ticks`: zero for non-positive durations, otherwise the
tempo map's `get_ticks_for_duration` when that method exists (the real `TempoMap`
defines it), else the hand computation from `base_tempo`. -/
def seconds_to_ticks (tm : TempoMapM) (seconds : ℤ) : ℤ :=
  if seconds ≤ 0 then 0
  else
    match tm.ticks_for_duration with
    | some f => f seconds
    | none =>
      let bpm := if tm.base_tempo = 0 then 60 else tm.base_tempo
      let beats : ℚ := (seconds : ℚ) * bpm / 60
      pyTrunc (beats * (tm.ppq : ℚ))

/-- Major-family test used by `StructureBuilder.build_segments` for the fallback
progression. -/
def scale_is_major_family (scale : String) : Bool :=
  scale = "major" ∨ scale = "ionian" ∨ scale = "mixolydian" ∨ scale = "lydian"

/-- Model of `StructureBuilder.__init__`'s scale normalization: `(scale or "major").lower()`. -/
def sb_init_scale (scale : String) : String :=
  if scale = "" then "major" else py_lower scale

/-- Model of `StructureBuilder.build_segments(total_seconds)`. `parse` is
`parse_progression_string`: `none` models a raised parse exception (caught and turned
into an empty progression), and `cm` is the builder's `chord_map`. The codomain is
`Except` so that a raised construction error would be visible; this function never
produces one. -/
def build_segments_ex (tm : TempoMapM) (zen_phases : List ZenPhaseDef)
    (cm : String → Option String) (scale : String)
    (custom : Option String) (parse : String → Option (List ProgItem))
    (breaths_raw : Option ℤ) (ppq : ℤ) (total_seconds : ℤ) :
    Except String (List Segment) :=
  let total_ticks := seconds_to_ticks tm total_seconds
  if total_ticks ≤ 0 then .ok []
  else
    let parsed : List ProgItem :=
      match custom with
      | some c => if py_strip c = "" then [] else (parse c).getD []
      | none => []
    let pa : List ProgItem × Bool :=
      if parsed.isEmpty then
        (if scale_is_major_family (sb_init_scale scale) then
          [ProgItem.pair "Imaj7" "Verse", ProgItem.pair "IVmaj7" "Verse"]
        else
          [ProgItem.pair "Im7" "Verse", ProgItem.pair "IVm7" "Verse"], true)
      else (parsed, false)
    let segments :=
      build_from_progression cm ppq tm.breath_cycle_bars breaths_raw pa.2 pa.1 total_ticks
    .ok (apply_zen_arc zen_phases total_ticks segments)

/-! ## TuningCoreV3 (src/core/tuning_core.py) -/

/-- Oracle for the two transcendental float functions tuning_core.py uses:
`math.log2` and `2.0 ** x` (inside `midi_to_hz`). They have no exact rational
counterpart, so every theorem below is quantified over this oracle. -/
structure FloatOracle where
  log2 : ℚ → ℚ
  pow2 : ℚ → ℚ

/-- Model of `TuningCoreV3._normalize_mode`. -/
def normalize_mode (mode : String) : String :=
  if mode = "" then "pure_key"
  else
    let m := py_lower (py_strip mode)
    if m = "pure" ∨ m = "key" ∨ m = "pure-key" ∨ m = "pure_key" then "pure_key"
    else if m = "solf" ∨ m = "solf_root" ∨ m = "solf-root" ∨ m = "follow_solf" then "solf_root"
    else if m = "solf_dual" ∨ m = "dual_solf" ∨ m = "solf-dual" then "solf_dual"
    else if m = "key_plus_solf_drone" ∨ m = "key+solf_drone" ∨ m = "key_solf_drone" then
      "key_plus_solf_drone"
    else "pure_key"

/-- The `valid` key list of `TuningCoreV3._normalize_key`. -/
def valid_keys : List String :=
  ["C", "C#", "DB", "D", "D#", "EB", "E", "F", "F#", "GB", "G", "G#", "AB", "A", "A#", "BB", "B"]

/-- Model of `TuningCoreV3._normalize_key`: empty or unrecognized keys fall back to `"C"`;
recognized flat spellings are rewritten to their sharp enharmonic. -/
def normalize_key (key : String) : String :=
  if key = "" then "C"
  else
    let k := py_upper (py_strip key)
    if k ∈ valid_keys then
      if k = "DB" then "C#"
      else if k = "EB" then "D#"
      else if k = "GB" then "F#"
      else if k = "AB" then "G#"
      else if k = "BB" then "A#"
      else k
    else "C"

/-- Model of `TuningCoreV3._normalize_scale`: empty scales fall back to `"major"`, the aliases
`ionian`/`maj`/`major` normalize to `"major"`, and any other string is returned
stripped and lower-cased. -/
def normalize_scale (scale : String) : String :=
  if scale = "" then "major"
  else
    let s := py_lower (py_strip scale)
    if s = "ionian" ∨ s = "maj" ∨ s = "major" then "major" else s

/-- The `solf_profile` configuration value as `_parse_solf_profile` receives it:
absent, a single number, a list of numbers, or a `primary`/`secondary` dict. -/
inductive SolfRaw where
  | nil
  | num (v : ℚ)
  | vals (vs : List ℚ)
  | dict (primary secondary : Option ℚ)

/-- Model of `TuningCoreV3._parse_solf_profile`: normalize to `(primary, secondary)`, dropping
non-positive frequencies. -/
def parse_solf_profile : SolfRaw → Option ℚ × Option ℚ
  | .nil => (none, none)
  | .num v => (if 0 < v then some v else none, none)
  | .vals vs =>
    match vs with
    | [] => (none, none)
    | [v] => (if 0 < v then some v else none, none)
    | v1 :: v2 :: _ =>
      (if 0 < v1 then some v1 else none, if 0 < v2 then some v2 else none)
  | .dict p s =>
    ((match p with | some v => if 0 < v then some v else none | none => none),
     (match s with | some v => if 0 < v then some v else none | none => none))

/-- Model of `TuningCoreV3._nearest_midi_from_freq`: `69 + 12*log2(freq/ref)`, rounded and
clamped to `[0, 127]`; non-positive frequencies fall back to A4 = 69. -/
def nearest_midi_from_freq (o : FloatOracle) (freq_hz ref_a_hz : ℚ) : ℤ :=
  if freq_hz ≤ 0 then 69
  else max 0 (min 127 (pyRound (69 + 12 * o.log2 (freq_hz / ref_a_hz))))

/-- Model of `midi_to_hz` (music_theory.py): `ref * 2 ** ((midi - 69)/12)`. -/
def midi_to_hz (o : FloatOracle) (midi : ℤ) (a4_hz : ℚ) : ℚ :=
  a4_hz * o.pow2 (((midi : ℚ) - 69) / 12)

/-- The `while base_m > 72: base_m -= 12` loop of `_suggest_drone_midi_from_solf`. -/
def lower_oct (m : ℤ) : ℤ :=
  if 72 < m then lower_oct (m - 12) else m
termination_by (m - 72).toNat
decreasing_by omega

/-- The `while base_m < 36: base_m += 12` loop of `_suggest_drone_midi_from_solf`. -/
def raise_oct (m : ℤ) : ℤ :=
  if m < 36 then raise_oct (m + 12) else m
termination_by (36 - m).toNat
decreasing_by omega

/-- Model of `TuningCoreV3._suggest_drone_midi_from_solf`. -/
def suggest_drone_midi (o : FloatOracle) (solf_hz ref_a_hz : ℚ) : ℤ :=
  let base_m := nearest_midi_from_freq o solf_hz ref_a_hz
  max 0 (min 127 (raise_oct (lower_oct base_m)))

/-- Model of `TuningCoreV3._compute_planned_ratio`: `(ratio, 12*log2(ratio))`, with `(1, 0)` for
degenerate inputs. -/
def compute_planned_ratio (o : FloatOracle) (target_hz : ℚ) (midi_anchor : ℤ)
    (ref_a_hz : ℚ) : ℚ × ℚ :=
  if target_hz ≤ 0 then (1, 0)
  else
    let equal := midi_to_hz o midi_anchor ref_a_hz
    if equal ≤ 0 then (1, 0)
    else
      let ratio := target_hz / equal
      (ratio, 12 * o.log2 ratio)

/-- Model of `TuningPlan` dataclass (the free-form `meta` debug dict is not modelled). -/
structure TuningPlan where
  mode : String
  base_key : String
  new_key : String
  scale : String
  ref_a_hz : ℚ := 440
  primary_solf_hz : Option ℚ := none
  secondary_solf_hz : Option ℚ := none
  primary_drone_midi : Option ℤ := none
  secondary_drone_midi : Option ℤ := none
  global_ratio_planned : ℚ := 1
  global_semitone_shift_planned : ℚ := 0
  register_shift : ℤ := 0

/-- Model of `TuningCoreV3.build_plan`. Inputs are the effective configuration values after
`_get_cfg`'s dict-priority lookup: raw `key` / `scale` / `drone_mode` strings, the raw
`solf_profile`, `ref_a_hz` (`none` when absent; a falsy zero also falls back to 440),
the `register_shift_override` once `int()` has succeeded, and `enable_global_shift`. -/
def build_plan (o : FloatOracle) (key_raw scale_raw mode_raw : String)
    (solf_raw : SolfRaw) (ref_a_raw : Option ℚ) (reg_shift_override : Option ℤ)
    (enable_global_shift : Bool) : TuningPlan :=
  let base_key := normalize_key key_raw
  let scale := normalize_scale scale_raw
  let mode := normalize_mode mode_raw
  let ps := parse_solf_profile solf_raw
  let primary_solf := ps.1
  let secondary_solf := ps.2
  let ref_a := if ref_a_raw.getD 440 = 0 then 440 else ref_a_raw.getD 440
  let register_shift := reg_shift_override.getD 0
  let new_key := base_key
  let plan : TuningPlan :=
    { mode := mode, base_key := base_key, new_key := new_key, scale := scale,
      ref_a_hz := ref_a, register_shift := register_shift }
  if mode = "pure_key" then plan
  else if mode = "solf_root" then
    let plan := { plan with primary_solf_hz := primary_solf, secondary_solf_hz := none }
    let plan :=
      match primary_solf with
      | some f =>
        if 0 < f then
          let drone_midi := suggest_drone_midi o f ref_a
          let rs := compute_planned_ratio o f drone_midi ref_a
          { plan with
            primary_drone_midi := some drone_midi,
            global_ratio_planned := rs.1, global_semitone_shift_planned := rs.2 }
        else plan
      | none => plan
    if ¬ enable_global_shift then
      { plan with global_ratio_planned := 1, global_semitone_shift_planned := 0 }
    else plan
  else if mode = "solf_dual" then
    let plan := { plan with
      primary_solf_hz := primary_solf, secondary_solf_hz := secondary_solf }
    let r1 : Option ℤ × ℚ × ℚ :=
      match primary_solf with
      | some f =>
        if 0 < f then
          let d1 := suggest_drone_midi o f ref_a
          let rs := compute_planned_ratio o f d1 ref_a
          (some d1, rs.1, rs.2)
        else (none, 1, 0)
      | none => (none, 1, 0)
    let r2 : Option ℤ × ℚ × ℚ :=
      match secondary_solf with
      | some f =>
        if 0 < f then
          let d2 := suggest_drone_midi o f ref_a
          let rs := compute_planned_ratio o f d2 ref_a
          (some d2, rs.1, rs.2)
        else (none, 1, 0)
      | none => (none, 1, 0)
    let plan := { plan with
      primary_drone_midi := r1.1, secondary_drone_midi := r2.1,
      global_ratio_planned := r1.2.1, global_semitone_shift_planned := r1.2.2 }
    if ¬ enable_global_shift then
      { plan with global_ratio_planned := 1, global_semitone_shift_planned := 0 }
    else plan
  else if mode = "key_plus_solf_drone" then
    let plan := { plan with primary_solf_hz := primary_solf, secondary_solf_hz := none }
    let plan :=
      match primary_solf with
      | some f =>
        if 0 < f then
          let d := suggest_drone_midi o f ref_a
          let rs := compute_planned_ratio o f d ref_a
          { plan with
            primary_drone_midi := some d,
            global_ratio_planned := rs.1, global_semitone_shift_planned := rs.2 }
        else plan
      | none => plan
    if ¬ enable_global_shift then
      { plan with global_ratio_planned := 1, global_semitone_shift_planned := 0 }
    else plan
  else plan

/-! ## ActivityMap V2 (src/utils/activity_map.py) -/

/-- Model of `_clamp` helper of activity_map.py. -/
def am_clamp (x lo hi : ℚ) : ℚ := max lo (min hi x)

/-- Model of `ActivityMapConfig` dataclass with its defaults. -/
structure AMConfig where
  bin_size_ticks : ℤ := 120
  base_movement_ratio : ℚ := 0.2
  movement_ratio_gain : ℚ := 0.6
  stillness_randomness : ℚ := 0.25
  movement_window_breaths : ℤ := 4
  global_soft_limit : ℚ := 0.75
  global_hard_limit : ℚ := 1.15
  layer_soft_limit : ℚ := 1.0
  layer_hard_limit : ℚ := 1.5

/-- Default `ActivityMapConfig`. -/
def defaultAMConfig : AMConfig := {}

/-- Model of `ActivityDecision` dataclass. -/
structure ActivityDecision where
  allow : Bool
  density_mul : ℚ := 1
  velocity_mul : ℚ := 1
  priority : ℚ := 0.5
  phase_name : String := ""
  breath_phase : String := ""
  breath_index : ℤ := 0
  reason : String := ""

/-- The default per-layer energy weights, with the `.get(layer, 1.0)` default folded in. -/
def default_energy_weights : String → ℚ := fun k =>
  match k with
  | "MELODY" => 1.2
  | "HARM" => 1.0
  | "PULSE" => 1.0
  | "AIR" => 0.6
  | "CHIME" => 0.8
  | "NATURE" => 0.5
  | "VOCAL" => 1.1
  | "HANDPAN" => 1.2
  | "BASS" => 0.9
  | "BINAURAL" => 0.3
  | "DRONE" => 0.7
  | _ => 1.0

/-- Immutable part of a constructed `ActivityMap`: normalized config, bin geometry,
energy weights, the `math.exp` oracle, and the seeded RNG draw stream
(`random.Random(seed).random()` is a deterministic function of the seed, modelled as
the stream of its successive draws). -/
structure AMContext where
  cfg : AMConfig
  total_ticks : ℤ
  bin_size : ℤ
  num_bins : ℤ
  energy_weights : String → ℚ
  rexp : ℚ → ℚ
  stream : ℕ → ℚ

/-- Mutable part of an `ActivityMap`: the global and per-layer bin arrays (functions out
of bin index) and the number of RNG draws consumed so far. -/
structure AMState where
  global_bins : ℤ → ℚ
  layer_bins : String → Option (ℤ → ℚ)
  rng_k : ℕ

/-- Bins as `ActivityMap.__init__` leaves them: all zero, no per-layer arrays yet. -/
def initAMState : AMState := ⟨fun _ => 0, fun _ => none, 0⟩

/-- Model of `ActivityMap.__init__` + `_build_config`: force `bin_size_ticks` positive, clamp
`total_ticks` at 0, compute `num_bins = max(1, ceil(total/bin_size))`. `ew_overrides`
models `user_options["activity_energy_weights"]` (keys upper-cased). -/
def mk_activity_map (cfg : AMConfig) (ew_overrides : List (String × ℚ))
    (total_ticks : ℤ) (rexp : ℚ → ℚ) (stream : ℕ → ℚ) : AMContext :=
  let cfg := if cfg.bin_size_ticks ≤ 0 then { cfg with bin_size_ticks := 120 } else cfg
  let total := max 0 total_ticks
  let bin_size := max 1 cfg.bin_size_ticks
  let num_bins := if total ≤ 0 then 1 else max 1 ⌈(total : ℚ) / (bin_size : ℚ)⌉
  let ew := ew_overrides.foldl
    (fun f kv => fun k => if k = py_upper kv.1 then kv.2 else f k) default_energy_weights
  { cfg := cfg, total_ticks := total, bin_size := bin_size, num_bins := num_bins,
    energy_weights := ew, rexp := rexp, stream := stream }

/-- Model of `ActivityMap._tick_to_bin`. -/
def tick_to_bin (ctx : AMContext) (tick : ℤ) : ℤ :=
  if ctx.num_bins ≤ 1 then 0
  else
    let idx := tick.fdiv ctx.bin_size
    let idx := if idx < 0 then 0 else idx
    if ctx.num_bins ≤ idx then ctx.num_bins - 1 else idx

/-- Model of `ActivityMap._ensure_layer_bins` read side: a missing layer array is all zero. -/
def ensure_layer_bins (st : AMState) (key : String) : ℤ → ℚ :=
  (st.layer_bins key).getD (fun _ => 0)

/-- Sum of `f` over the integer range `[lo, hi]` (`for i in range(lo, hi+1)`). -/
def bin_sum (f : ℤ → ℚ) (lo hi : ℤ) : ℚ :=
  ((List.range (hi + 1 - lo).toNat).map (fun n => f (lo + (n : ℤ)))).sum

/-- Model of `ActivityMap.commit_event`: spread `weight` evenly over the bins spanned by
`[start_tick, start_tick + duration_ticks)`, into both the global and the layer
array. -/
def commit_event (ctx : AMContext) (st : AMState) (layer : String)
    (start_tick duration_ticks : ℤ) (weight : ℚ) : AMState :=
  if ctx.num_bins ≤ 0 ∨ duration_ticks ≤ 0 then st
  else
    let key := py_upper layer
    let lbins := ensure_layer_bins st key
    let s := max 0 start_tick
    let e := max s (start_tick + duration_ticks)
    let sb := tick_to_bin ctx s
    let eb := tick_to_bin ctx (e - 1)
    let eb := if eb < sb then sb else eb
    let span := max 1 (eb - sb + 1)
    let per := weight / (span : ℚ)
    let upd : (ℤ → ℚ) → ℤ → ℚ := fun f i =>
      if sb ≤ i ∧ i ≤ eb ∧ 0 ≤ i ∧ i < ctx.num_bins then f i + per else f i
    { global_bins := upd st.global_bins,
      layer_bins := fun k => if k = key then some (upd lbins) else st.layer_bins k,
      rng_k := st.rng_k }

/-- Model of `ActivityMap._get_density`: mean over a ±1-bin window, globally and for the layer
(the source's `0 <= i < len(bins)` guard is vacuous here since the window already
lies inside `[0, num_bins)`). -/
def get_density (ctx : AMContext) (st : AMState) (layer : String) (tick : ℤ) : ℚ × ℚ :=
  if ctx.num_bins ≤ 0 then (0, 0)
  else
    let idx := tick_to_bin ctx tick
    if idx < 0 ∨ ctx.num_bins ≤ idx then (0, 0)
    else
      let lo := max 0 (idx - 1)
      let hi := min (ctx.num_bins - 1) (idx + 1)
      let span := max 1 (hi - lo + 1)
      let global_density := bin_sum st.global_bins lo hi / (span : ℚ)
      let key := py_upper layer
      let layer_density :=
        match st.layer_bins key with
        | none => 0
        | some bins => bin_sum bins lo hi / (span : ℚ)
      (global_density, layer_density)

/-- Model of `ActivityMap._get_phase_info` as wired in this repository: the `hasattr` probes for
`get_phase_at_tick`, `get_phase_name_at_tick` and `get_movement_bias_at_tick` all
fail, because `ZenArcMatrix` (zen_arc_matrix.py) defines none of those methods — its
API is `get_phase_by_ratio` / `get_phase_for_segment` / `get_phase_for_tick` — so the
fallback `("", 0.5)` is returned for every tick. -/
def am_get_phase_info (_tick : ℤ) : String × ℚ := ("", 0.5)

/-- Model of `ActivityMap._get_breath_info` as wired in this repository: `BreathSyncManager`
(breath_sync.py) defines neither `get_breath_info_at_tick` nor
`get_breath_phase_at_tick` / `get_breath_index_at_tick`, so the fallback
`(0, "free")` is returned for every tick. -/
def am_get_breath_info (_tick : ℤ) : ℤ × String := (0, "free")

/-- Step 2 of `query_decision`: `movement_ratio = clamp(base + gain * movement_bias)`. -/
def am_movement_base (cfg : AMConfig) (movement_bias : ℚ) : ℚ :=
  am_clamp (cfg.base_movement_ratio + cfg.movement_ratio_gain * movement_bias) 0 1

/-- The phase adjustment of `query_decision` (step 3.1): ×0.6 for grounding/intro, ×0.3
for breakdown, ×0.5 for integration/outro, ×1.1 for `"peak"`, then clamp to `[0,1]`. -/
def am_phase_scale (phase_name : String) (mr : ℚ) : ℚ :=
  let pl := py_lower phase_name
  let mr :=
    if pl = "grounding" ∨ pl = "intro" then mr * 0.6
    else if pl = "breakdown" then mr * 0.3
    else if pl = "integration" ∨ pl = "outro" then mr * 0.5
    else if pl = "peak" then mr * 1.1
    else mr
  am_clamp mr 0 1

/-- The breath adjustment of `query_decision`: ×0.7 when the breath tag is valley/end. -/
def am_breath_scale (breath_phase : String) (mr : ℚ) : ℚ :=
  let bl := py_lower breath_phase
  if bl = "valley" ∨ bl = "end" then mr * 0.7 else mr

/-- The density-pressure term of `query_decision`. -/
def am_density_pressure (cfg : AMConfig) (global_density eff_layer_density : ℚ) : ℚ :=
  let gp := am_clamp (global_density / max (1/1000000) cfg.global_hard_limit) 0 1
  let lp := am_clamp (eff_layer_density / max (1/1000000) cfg.layer_hard_limit) 0 1
  max gp lp

/-- The movement ratio that reaches the stillness gate of `query_decision`: the base
ratio, phase-scaled, breath-scaled, then shrunk by up to 50% under density
pressure. -/
def gate_movement_ratio (cfg : AMConfig) (phase_name : String) (movement_bias : ℚ)
    (breath_phase : String) (global_density eff_layer_density : ℚ) : ℚ :=
  let mr := am_movement_base cfg movement_bias
  let mr := am_phase_scale phase_name mr
  let mr := am_breath_scale breath_phase mr
  let dp := am_density_pressure cfg global_density eff_layer_density
  if 0 < dp then mr * (1 - 0.5 * dp) else mr

/-- Model of `ActivityMap.query_decision`. RNG draws are consumed from `ctx.stream` at the
state's cursor: none on a hard-limit denial (the source's `if allow:` block is
skipped), two otherwise (`gate_rand` and the randomness term of the effective
gate). -/
def query_decision (ctx : AMContext) (st : AMState) (layer : String) (start_tick : ℤ)
    (_segment_index _total_segments : ℤ) (base_velocity importance : ℚ) :
    ActivityDecision × AMState :=
  let layer_key := py_upper layer
  let base_velocity := am_clamp base_velocity 0 2
  let importance := am_clamp importance 0 2
  let pinfo := am_get_phase_info start_tick
  let phase_name := pinfo.1
  let movement_bias := pinfo.2
  let binfo := am_get_breath_info start_tick
  let breath_index := binfo.1
  let breath_phase := binfo.2
  let dens := get_density ctx st layer_key start_tick
  let global_density := dens.1
  let layer_density := dens.2
  let energy_weight := ctx.energy_weights layer_key
  let eff := layer_density * energy_weight
  let priority :=
    am_clamp (importance * (0.4 + 0.6 * movement_bias)
      * ctx.rexp (-(0.7 * max 0 global_density))) 0 1
  if ctx.cfg.global_hard_limit < global_density then
    ({ allow := false, density_mul := am_clamp 1 0 2,
       velocity_mul := am_clamp (1 * base_velocity) 0 2, priority := priority,
       phase_name := phase_name, breath_phase := breath_phase,
       breath_index := breath_index, reason := "global_over_hard_limit" }, st)
  else if ctx.cfg.layer_hard_limit < eff then
    ({ allow := false, density_mul := am_clamp 1 0 2,
       velocity_mul := am_clamp (1 * base_velocity) 0 2, priority := priority,
       phase_name := phase_name, breath_phase := breath_phase,
       breath_index := breath_index, reason := "layer_over_hard_limit" }, st)
  else
    let dvr : ℚ × ℚ × String :=
      if ctx.cfg.global_soft_limit < global_density then
        let alpha := am_clamp ((ctx.cfg.global_hard_limit - global_density)
          / max (1/1000000) (ctx.cfg.global_hard_limit - ctx.cfg.global_soft_limit)) 0 1
        (1 * (0.5 + 0.5 * alpha), 1 * (0.7 + 0.3 * alpha), "global_over_soft_limit")
      else (1, 1, "ok")
    let dvr : ℚ × ℚ × String :=
      if ctx.cfg.layer_soft_limit < eff then
        let beta := am_clamp ((ctx.cfg.layer_hard_limit - eff)
          / max (1/1000000) (ctx.cfg.layer_hard_limit - ctx.cfg.layer_soft_limit)) 0 1
        (dvr.1 * (0.5 + 0.5 * beta), dvr.2.1 * (0.8 + 0.2 * beta),
          if dvr.2.2 = "ok" then "layer_over_soft_limit" else dvr.2.2)
      else dvr
    let gate_rand := ctx.stream st.rng_k
    let mr := gate_movement_ratio ctx.cfg phase_name movement_bias breath_phase
      global_density eff
    let reason :=
      if 0 < am_density_pressure ctx.cfg global_density eff then
        (if dvr.2.2 = "ok" then "density_pressure" else dvr.2.2)
      else dvr.2.2
    let effective_gate := am_clamp (mr * (1 - ctx.cfg.stillness_randomness)
      + ctx.cfg.stillness_randomness * ctx.stream (st.rng_k + 1)) 0 1
    let ar : Bool × String :=
      if effective_gate < gate_rand then
        (false, if reason = "ok" then "stillness_gate" else reason)
      else (true, reason)
    ({ allow := ar.1, density_mul := am_clamp dvr.1 0 2,
       velocity_mul := am_clamp (dvr.2.1 * base_velocity) 0 2, priority := priority,
       phase_name := phase_name, breath_phase := breath_phase,
       breath_index := breath_index, reason := ar.2 },
     { st with rng_k := st.rng_k + 2 })

/-- One call of the `ActivityMap` decision-layer API. -/
inductive AMOp where
  | query (layer : String) (start_tick segment_index total_segments : ℤ)
      (base_velocity importance : ℚ)
  | commit (layer : String) (start_tick duration_ticks : ℤ) (weight : ℚ)

/-- Run a sequence of `query_decision` / `commit_event` calls, collecting the returned
decisions in order. -/
def am_run (ctx : AMContext) (st : AMState) : List AMOp → List ActivityDecision × AMState
  | [] => ([], st)
  | .query l t si ts bv imp :: rest =>
    let r := query_decision ctx st l t si ts bv imp
    let rs := am_run ctx r.2 rest
    (r.1 :: rs.1, rs.2)
  | .commit l s d w :: rest => am_run ctx (commit_event ctx st l s d w) rest

/-- Modelled from the spec (claim C3): the movement ratio the spec prescribes for a
tick whose ratio falls in the default grounding phase, with no accumulated density:
`(base_movement_ratio + gain * grounding.movement_bias) * 0.6
= (0.2 + 0.6 * 0.15) * 0.6`. -/
def spec_c3_grounding_ratio : ℚ := (0.2 + 0.6 * 0.15) * 0.6

/-- Contiguous coverage of `[c, total]` by a segment list: each segment starts where the
previous ended, has positive length, and the last one ends exactly at `total`. -/
def chain_cover (c total : ℤ) : List Segment → Prop
  | [] => c = total
  | s :: rest => s.start_tick = c ∧ c < s.end_tick ∧ chain_cover s.end_tick total rest

/-- All mode spellings `TuningCoreV3._normalize_mode` recognizes. -/
def recognized_mode_tokens : List String :=
  ["pure", "key", "pure-key", "pure_key", "solf", "solf_root", "solf-root", "follow_solf",
   "solf_dual", "dual_solf", "solf-dual", "key_plus_solf_drone", "key+solf_drone",
   "key_solf_drone"]

/-- A `SafetyFilter` state holding 32 already-accepted melody events at tick 0: enough to
trip the density hard limit on the next melody note. -/
def c10_state : SafetyState :=
  { last_velocity := fun _ => none
    density_events := fun l => if l = "melody" then List.replicate 32 0 else []
    shock_last := fun _ => none
    mix_events := [] }

/-- The tempo map the end-to-end scenario wires: 60 BPM at 480 PPQ (so one second is 480
ticks, via the real `TempoMap.get_ticks_for_duration`), two bars per breath. -/
def scenarioTempoMap : TempoMapM :=
  { ppq := 480, base_tempo := 60, breath_cycle_bars := 2,
    ticks_for_duration := some (fun s => 480 * s) }

/-- A `BreathSyncManager` slot allocator in which seven earlier aligned notes already
occupy the `(breath 0, "valley")` slot — the state produced by seven prior
`align_note` calls for a valley-mode layer at ticks inside breath 0. -/
def c5_state : BreathSyncState := ⟨fun k => if k = (0, "valley") then 7 else 0⟩

/-!
## Theorems

Shared helper lemmas first, then one theorem per claim (with a witness when the
theorem carries a hypothesis, and a counterexample where the claim fails).
-/

theorem dropWhile_dropWhile_of_imp {α : Type} (p q : α → Bool) (l : List α)
    (h : ∀ x, q x = true → p x = true) :
    (l.dropWhile q).dropWhile p = l.dropWhile p := by
  induction l with
  | nil => rfl
  | cons x xs ih =>
    by_cases hq : q x = true
    · rw [List.dropWhile_cons_of_pos hq, ih, List.dropWhile_cons_of_pos (h x hq)]
    · rw [List.dropWhile_cons_of_neg (by simpa using hq)]

theorem density_prune_prune (w : ℤ) (events : List ℤ) (t t' : ℤ) (h : t ≤ t') :
    density_prune w (density_prune w events t) t' = density_prune w events t' := by
  unfold density_prune
  apply dropWhile_dropWhile_of_imp
  intro x hx
  simp only [decide_eq_true_eq] at hx ⊢
  omega

/-- Claim C2 — the spec says the safety guards never throw, but `SafetyFilter.apply_note`
wired with the real `RegisterManager` (as `zen_core.py` constructs it) raises
`AttributeError` on every call: `RegisterSafety.enforce_register` invokes
`self.rm.get_layer_range(layer, tick)`, a method the real `RegisterManager` does not
define (its API is `get_band`/`constrain_pitch`/`safe_pitch`/`clamp_pitch`; only the
ImportError stub inside safety_filter.py has `get_layer_range`). Evaluated here at the
concrete input `layer="melody", pitch=60, velocity=80, tick=0` from a fresh state. -/
theorem c2_theorem :
    apply_note defaultSafetyConfig defaultTempoMap
      (real_register_provider (mk_register_manager none []))
      initSafetyState "melody" 60 80 0 none = .error () := rfl

/-- Claim C3 — the claim says the movement ratio equals
`base_movement_ratio + gain * phase.movement_bias` for the phase at the tick's ratio,
scaled ×0.6 in grounding, ×0.3 in breakdown, ×0.5 in integration, ×1.1 in awakening
and ×0.7 on a valley/end breath tag. In the code as wired, the ratio reaching the
stillness gate is `1/2` at every tick (with no accumulated density): the `hasattr`
probes of `_get_phase_info` / `_get_breath_info` fail against the real `ZenArcMatrix`
and `BreathSyncManager`, so the neutral fallbacks `("", 0.5)` and `(0, "free")` are
always used, no phase or breath scaling ever fires, and the ×1.1 branch tests the
phase name `"peak"`, which `ZenArcMatrix` never produces (its fourth phase is named
`"awakening"`). In particular the value differs from the spec's grounding-phase value
`(0.2 + 0.6·0.15)·0.6 = 0.174`. -/
theorem c3_theorem :
    (∀ tick : ℤ,
      gate_movement_ratio defaultAMConfig (am_get_phase_info tick).1
        (am_get_phase_info tick).2 (am_get_breath_info tick).2 0 0 = 1/2) ∧
    spec_c3_grounding_ratio < 1/2 := by
  constructor
  · intro tick
    show gate_movement_ratio defaultAMConfig "" 0.5 "free" 0 0 = 1/2
    have h1 : py_lower "" = "" := by decide
    have h2 : py_lower "free" = "free" := by decide
    norm_num [gate_movement_ratio, am_movement_base, am_phase_scale, am_breath_scale,
      am_density_pressure, am_clamp, defaultAMConfig, h1, h2, max_def, min_def]
    simp
    norm_num
  · norm_num [spec_c3_grounding_ratio]

/-- Claim C4 (counterexample) — the claim says construction fails with a hard error
exactly when `total_ticks ≤ 0`; in fact `build_segments` with a zero duration returns
an empty segment list normally (no exception is raised, and the caller receives `[]`
as if successful). -/
theorem c4_counterexample :
    build_segments_ex scenarioTempoMap default_zen_phases (fun _ => none) "major"
      none (fun _ => none) none 480 0 = .ok [] := rfl

/-- Claim C4 (amended) — `StructureBuilder.build_segments` never raises: when the
computed `total_ticks` is non-positive it returns the empty list, and in every other
case it returns normally as well (the chord token list is never empty because a
two-chord fallback progression is substituted, and a failed custom parse is caught
and also falls back). -/
theorem c4_theorem (tm : TempoMapM) (zen : List ZenPhaseDef)
    (cm : String → Option String) (scale : String) (custom : Option String)
    (parse : String → Option (List ProgItem)) (breaths_raw : Option ℤ)
    (ppq total_seconds : ℤ) :
    (seconds_to_ticks tm total_seconds ≤ 0 →
      build_segments_ex tm zen cm scale custom parse breaths_raw ppq total_seconds
        = .ok []) ∧
    (∃ segs, build_segments_ex tm zen cm scale custom parse breaths_raw ppq total_seconds
        = .ok segs) := by
  constructor
  · intro h
    unfold build_segments_ex
    rw [if_pos h]
  · by_cases h : seconds_to_ticks tm total_seconds ≤ 0
    · exact ⟨[], by unfold build_segments_ex; rw [if_pos h]⟩
    · exact ⟨_, by unfold build_segments_ex; rw [if_neg h]⟩

/-- Witness for C4 at the end-to-end scenario tempo map and zero duration. -/
theorem c4_witness :
    build_segments_ex scenarioTempoMap default_zen_phases (fun _ => none) "minor"
      none (fun _ => none) none 480 0 = .ok [] ∧
    (∃ segs, build_segments_ex scenarioTempoMap default_zen_phases (fun _ => none) "minor"
      none (fun _ => none) none 480 0 = .ok segs) :=
  ⟨(c4_theorem scenarioTempoMap default_zen_phases (fun _ => none) "minor"
      none (fun _ => none) none 480 0).1 (by decide),
   (c4_theorem scenarioTempoMap default_zen_phases (fun _ => none) "minor"
      none (fun _ => none) none 480 0).2⟩

/-- Claim C9 — determinism of the decision layer under an explicit seed: two
`ActivityMap`s built with the same configuration, energy weights, total tick count,
`math.exp` oracle, and the same seeded RNG stream (`random.Random(seed)` is a
deterministic function of the seed, so equal seeds give pointwise-equal draw
streams), fed the same sequence of `query_decision`/`commit_event` calls, return
identical decision lists. All randomness flows through the per-instance stream: no
other source enters `query_decision`. -/
theorem c9_theorem (cfg : AMConfig) (ew : List (String × ℚ)) (total_ticks : ℤ)
    (rexp : ℚ → ℚ) (f g : ℕ → ℚ) (ops : List AMOp) (hfg : ∀ n, f n = g n) :
    (am_run (mk_activity_map cfg ew total_ticks rexp f) initAMState ops).1 =
    (am_run (mk_activity_map cfg ew total_ticks rexp g) initAMState ops).1 := by
  have h : f = g := funext hfg
  subst h
  rfl

/-- Witness for C9: a query/commit/query script on two identically-seeded maps. -/
theorem c9_witness :
    (am_run (mk_activity_map defaultAMConfig [] 28800 (fun _ => 1) (fun _ => 0))
      initAMState
      [AMOp.query "melody" 0 0 1 1 1, AMOp.commit "melody" 0 240 1,
       AMOp.query "melody" 100 0 1 1 1]).1 =
    (am_run (mk_activity_map defaultAMConfig [] 28800 (fun _ => 1) (fun _ => 0))
      initAMState
      [AMOp.query "melody" 0 0 1 1 1, AMOp.commit "melody" 0 240 1,
       AMOp.query "melody" 100 0 1 1 1]).1 :=
  c9_theorem defaultAMConfig [] 28800 (fun _ => 1) (fun _ => 0) (fun _ => 0)
    [AMOp.query "melody" 0 0 1 1 1, AMOp.commit "melody" 0 240 1,
     AMOp.query "melody" 100 0 1 1 1] (fun _ => rfl)

theorem normalize_key_unrecognized (key : String)
    (h : py_upper (py_strip key) ∉ valid_keys) : normalize_key key = "C" := by
  unfold normalize_key
  by_cases h0 : key = ""
  · rw [if_pos h0]
  · rw [if_neg h0]
    simp only [if_neg h]

theorem normalize_mode_unrecognized (mode : String)
    (h : py_lower (py_strip mode) ∉ recognized_mode_tokens) :
    normalize_mode mode = "pure_key" := by
  unfold normalize_mode
  by_cases h0 : mode = ""
  · rw [if_pos h0]
  · rw [if_neg h0]
    have h1 : ¬ (py_lower (py_strip mode) = "pure" ∨ py_lower (py_strip mode) = "key" ∨
        py_lower (py_strip mode) = "pure-key" ∨ py_lower (py_strip mode) = "pure_key") := by
      intro hc
      apply h
      rcases hc with hc | hc | hc | hc <;> rw [hc] <;> decide
    have h2 : ¬ (py_lower (py_strip mode) = "solf" ∨ py_lower (py_strip mode) = "solf_root" ∨
        py_lower (py_strip mode) = "solf-root" ∨ py_lower (py_strip mode) = "follow_solf") := by
      intro hc
      apply h
      rcases hc with hc | hc | hc | hc <;> rw [hc] <;> decide
    have h3 : ¬ (py_lower (py_strip mode) = "solf_dual" ∨
        py_lower (py_strip mode) = "dual_solf" ∨ py_lower (py_strip mode) = "solf-dual") := by
      intro hc
      apply h
      rcases hc with hc | hc | hc <;> rw [hc] <;> decide
    have h4 : ¬ (py_lower (py_strip mode) = "key_plus_solf_drone" ∨
        py_lower (py_strip mode) = "key+solf_drone" ∨
        py_lower (py_strip mode) = "key_solf_drone") := by
      intro hc
      apply h
      rcases hc with hc | hc | hc <;> rw [hc] <;> decide
    simp only [if_neg h1, if_neg h2, if_neg h3, if_neg h4]

theorem normalize_scale_passthrough (scale : String) (h0 : scale ≠ "")
    (h : ¬ (py_lower (py_strip scale) = "ionian" ∨ py_lower (py_strip scale) = "maj" ∨
      py_lower (py_strip scale) = "major")) :
    normalize_scale scale = py_lower (py_strip scale) := by
  unfold normalize_scale
  rw [if_neg h0]
  simp only [if_neg h]

theorem build_plan_base_key (o : FloatOracle) (key_raw scale_raw mode_raw : String)
    (solf_raw : SolfRaw) (ref_a_raw : Option ℚ) (reg : Option ℤ) (en : Bool) :
    (build_plan o key_raw scale_raw mode_raw solf_raw ref_a_raw reg en).base_key
      = normalize_key key_raw := by
  simp only [build_plan]
  repeat' split
  all_goals rfl

theorem build_plan_mode (o : FloatOracle) (key_raw scale_raw mode_raw : String)
    (solf_raw : SolfRaw) (ref_a_raw : Option ℚ) (reg : Option ℤ) (en : Bool) :
    (build_plan o key_raw scale_raw mode_raw solf_raw ref_a_raw reg en).mode
      = normalize_mode mode_raw := by
  simp only [build_plan]
  repeat' split
  all_goals rfl

theorem build_plan_scale (o : FloatOracle) (key_raw scale_raw mode_raw : String)
    (solf_raw : SolfRaw) (ref_a_raw : Option ℚ) (reg : Option ℤ) (en : Bool) :
    (build_plan o key_raw scale_raw mode_raw solf_raw ref_a_raw reg en).scale
      = normalize_scale scale_raw := by
  simp only [build_plan]
  repeat' split
  all_goals rfl

/-- Claim C6 (counterexample) — the claim says an unrecognized scale string falls back
silently to `major`; in fact `build_plan` with `key="H"`, `scale="weird"`,
`drone_mode="nonsense"` yields `base_key="C"` and `mode="pure_key"` as claimed, but
`scale = "weird"`: `_normalize_scale` returns any unrecognized non-empty string
stripped and lower-cased instead of `"major"`. -/
theorem c6_counterexample :
    (build_plan ⟨fun _ => 0, fun _ => 0⟩ "H" "weird" "nonsense"
        SolfRaw.nil none none false).base_key = "C" ∧
    (build_plan ⟨fun _ => 0, fun _ => 0⟩ "H" "weird" "nonsense"
        SolfRaw.nil none none false).mode = "pure_key" ∧
    (build_plan ⟨fun _ => 0, fun _ => 0⟩ "H" "weird" "nonsense"
        SolfRaw.nil none none false).scale = "weird" ∧
    (build_plan ⟨fun _ => 0, fun _ => 0⟩ "H" "weird" "nonsense"
        SolfRaw.nil none none false).scale ≠ "major" := by
  refine ⟨?_, ?_, ?_, ?_⟩
  · rw [build_plan_base_key]; decide
  · rw [build_plan_mode]; decide
  · rw [build_plan_scale]; decide
  · rw [build_plan_scale]; decide

/-- Claim C6 (amended) — building a `TuningPlan` never raises, an unrecognized key
string yields `base_key = "C"`, an unrecognized tuning-mode string yields
`mode = "pure_key"`, but an unrecognized **non-empty** scale string is passed through
stripped and lower-cased (only an empty/missing scale or the aliases
`ionian`/`maj`/`major` produce `"major"`). -/
theorem c6_theorem (o : FloatOracle) (key_raw scale_raw mode_raw : String)
    (solf_raw : SolfRaw) (ref_a_raw : Option ℚ) (reg : Option ℤ) (en : Bool) :
    (py_upper (py_strip key_raw) ∉ valid_keys →
      (build_plan o key_raw scale_raw mode_raw solf_raw ref_a_raw reg en).base_key = "C") ∧
    (py_lower (py_strip mode_raw) ∉ recognized_mode_tokens →
      (build_plan o key_raw scale_raw mode_raw solf_raw ref_a_raw reg en).mode
        = "pure_key") ∧
    (scale_raw ≠ "" →
      ¬ (py_lower (py_strip scale_raw) = "ionian" ∨ py_lower (py_strip scale_raw) = "maj" ∨
        py_lower (py_strip scale_raw) = "major") →
      (build_plan o key_raw scale_raw mode_raw solf_raw ref_a_raw reg en).scale
        = py_lower (py_strip scale_raw)) := by
  refine ⟨?_, ?_, ?_⟩
  · intro h
    rw [build_plan_base_key]
    exact normalize_key_unrecognized key_raw h
  · intro h
    rw [build_plan_mode]
    exact normalize_mode_unrecognized mode_raw h
  · intro h0 h
    rw [build_plan_scale]
    exact normalize_scale_passthrough scale_raw h0 h

/-- Witness for C6 at the unrecognized strings `key="Q"`, `scale="mystery"`,
`drone_mode="bogus"`. -/
theorem c6_witness :
    (build_plan ⟨fun _ => 0, fun _ => 0⟩ "Q" "mystery" "bogus"
        SolfRaw.nil none none false).base_key = "C" ∧
    (build_plan ⟨fun _ => 0, fun _ => 0⟩ "Q" "mystery" "bogus"
        SolfRaw.nil none none false).mode = "pure_key" ∧
    (build_plan ⟨fun _ => 0, fun _ => 0⟩ "Q" "mystery" "bogus"
        SolfRaw.nil none none false).scale = py_lower (py_strip "mystery") :=
  ⟨(c6_theorem ⟨fun _ => 0, fun _ => 0⟩ "Q" "mystery" "bogus"
      SolfRaw.nil none none false).1 (by decide),
   (c6_theorem ⟨fun _ => 0, fun _ => 0⟩ "Q" "mystery" "bogus"
      SolfRaw.nil none none false).2.1 (by decide),
   (c6_theorem ⟨fun _ => 0, fun _ => 0⟩ "Q" "mystery" "bogus"
      SolfRaw.nil none none false).2.2 (by decide) (by decide)⟩

theorem shifted_le (b : RegisterBand) (s : ℤ) (h : b.min_midi ≤ b.max_midi) :
    (b.shifted s).min_midi ≤ (b.shifted s).max_midi := by
  unfold RegisterBand.shifted
  split
  · exact h
  · show b.min_midi + s ≤ b.max_midi + s
    omega

theorem default_bands_le (name : String) (b : RegisterBand)
    (h : DEFAULT_BANDS name = some b) : b.min_midi ≤ b.max_midi := by
  unfold DEFAULT_BANDS at h
  split at h <;>
    first
      | (injection h with h; subst h; decide)
      | exact absurd h (by simp)

theorem build_bands_le (shift : ℤ) (ovs : List (String × Option ℤ × Option ℤ))
    (k : String) (b : RegisterBand) (h : build_bands shift ovs k = some b) :
    b.min_midi ≤ b.max_midi := by
  unfold build_bands at h
  revert h
  suffices H : ∀ (l : List (String × Option ℤ × Option ℤ))
      (f : String → Option RegisterBand),
      (∀ k b, f k = some b → b.min_midi ≤ b.max_midi) →
      ∀ k b, (l.foldl apply_band_override f) k = some b → b.min_midi ≤ b.max_midi by
    intro h
    refine H ovs _ ?_ k b h
    intro k b hb
    simp only [Option.map_eq_some'] at hb
    obtain ⟨a, ha, rfl⟩ := hb
    exact shifted_le a shift (default_bands_le k a ha)
  intro l
  induction l with
  | nil => intro f hf; exact hf
  | cons ov rest ih =>
    intro f hf
    apply ih
    intro k b hb
    unfold apply_band_override at hb
    rcases ov with ⟨nm, mn, mx⟩
    rcases mn with _ | mn <;> rcases mx with _ | mx <;> simp only at hb
    · exact hf k b hb
    · exact hf k b hb
    · exact hf k b hb
    · by_cases hk : k = normalize_layer_name nm
      · rw [if_pos hk] at hb
        simp only [Option.some.injEq] at hb
        subst hb
        dsimp only
        split <;> omega
      · rw [if_neg hk] at hb
        exact hf k b hb

/-- Claim C8 — register clamp totality: for every voice name (unrecognized names
normalize to the generic band), every global shift delivered by the tuning plan,
every set of per-voice overrides, and every pitch in `[-50, 200]`,
`RegisterManager.constrain_pitch` returns a value inside that voice's resolved band
as reported by `get_band` (defaults shifted by the clamped global shift, overrides
applied outright with inverted bounds repaired). -/
theorem c8_theorem (plan_shift : Option ℤ) (ovs : List (String × Option ℤ × Option ℤ))
    (name : String) (pitch : ℤ) (h1 : -50 ≤ pitch) (h2 : pitch ≤ 200) :
    ((mk_register_manager plan_shift ovs).get_band name).1
        ≤ (mk_register_manager plan_shift ovs).constrain_pitch name pitch ∧
    (mk_register_manager plan_shift ovs).constrain_pitch name pitch
        ≤ ((mk_register_manager plan_shift ovs).get_band name).2 := by
  unfold RegisterManagerM.get_band RegisterManagerM.constrain_pitch
  cases hb : (mk_register_manager plan_shift ovs).bands (normalize_layer_name name) with
  | none =>
    simp only [hb]
    unfold RegisterBand.shifted
    split_ifs <;> simp_all <;> omega
  | some b =>
    have hble : b.min_midi ≤ b.max_midi := build_bands_le _ ovs _ b hb
    simp only [hb]
    split_ifs <;> omega

/-- Witness for C8: the melody voice with no shift and no overrides, pitch 100. -/
theorem c8_witness :
    ((mk_register_manager none []).get_band "melody").1
        ≤ (mk_register_manager none []).constrain_pitch "melody" 100 ∧
    (mk_register_manager none []).constrain_pitch "melody" 100
        ≤ ((mk_register_manager none []).get_band "melody").2 :=
  c8_theorem none [] "melody" 100 (by decide) (by decide)

/-- Claim C1 (counterexample) — the claim says an input velocity ≤ 0 forces
`allow = false`. In fact `apply_note` on a fresh state with `velocity = 0` (layer
`"melody"`, pitch 60, tick 0, a working register range) returns `allow = true` with
velocity 10: `TimbreSafety.adjust` ends with `max(vel_min, min(vel_max, v))`, which
raises the zero velocity to `vel_min = 10`, and the final `allow` check only looks at
that post-timbre velocity. -/
theorem c1_counterexample :
    result_allow (apply_note defaultSafetyConfig defaultTempoMap stub_register_provider
        initSafetyState "melody" 60 0 0 none) = some true ∧
    result_vel (apply_note defaultSafetyConfig defaultTempoMap stub_register_provider
        initSafetyState "melody" 60 0 0 none) = some 10 ∧
    result_pitch (apply_note defaultSafetyConfig defaultTempoMap stub_register_provider
        initSafetyState "melody" 60 0 0 none) = some 60 := by
  refine ⟨?_, ?_, ?_⟩ <;>
    norm_num [apply_note, enforce_register, stub_register_provider, enforce_pitch,
      enforce_velocity, defaultSafetyConfig, defaultTempoMap, tm_ppq, tm_cycle_sf,
      shock_enforce, shock_window_ticks, check_density, density_window_ticks,
      density_prune, ticks_per_breath, pyTrunc, pyRound, timbre_adjust, mix_enforce,
      mix_window_ticks, initSafetyState, result_allow, result_vel, result_pitch,
      max_def, min_def]

/-- Claim C1 (amended) — range totality holds: for every starting state, layer, meta
packet, and pitch/velocity in `[-50, 200]`, `apply_note` with a register range
provider whose bands lie inside `[0, 127]` (as all the real shifted default bands do)
returns normally with a pitch in `[0, 127]` and a velocity in `[0, 127]`. The
`velocity ≤ 0 ⇒ allow = false` part of the claim is dropped — see the
counterexample. -/
theorem c1_theorem (f : String → ℤ → ℤ × ℤ)
    (hf : ∀ l t, 0 ≤ (f l t).1 ∧ (f l t).1 ≤ 127 ∧ 0 ≤ (f l t).2 ∧ (f l t).2 ≤ 127)
    (st : SafetyState) (layer : String) (pitch velocity tick : ℤ)
    (meta : Option NoteMeta) (hp1 : -50 ≤ pitch) (hp2 : pitch ≤ 200)
    (hv1 : -50 ≤ velocity) (hv2 : velocity ≤ 200) :
    ∃ p v a st',
      apply_note defaultSafetyConfig defaultTempoMap ⟨some f⟩ st layer pitch velocity
        tick meta = .ok (p, v, a, st') ∧
      0 ≤ p ∧ p ≤ 127 ∧ 0 ≤ v ∧ v ≤ 127 := by
  obtain ⟨hb1, hb2, hb3, hb4⟩ := hf layer tick
  simp only [apply_note, enforce_register]
  refine ⟨_, _, _, _, rfl, ?_, ?_, ?_, ?_⟩
  · split_ifs <;> omega
  · split_ifs <;> omega
  · exact le_max_left 0 _
  · exact max_le (by norm_num) (min_le_left _ _)

/-- Witness for C1 at the stub register range `(21, 108)`, melody pitch 60,
velocity 0, tick 0, fresh state. -/
theorem c1_witness :
    ∃ p v a st',
      apply_note defaultSafetyConfig defaultTempoMap ⟨some (fun _ _ => (21, 108))⟩
        initSafetyState "melody" 60 0 0 none = .ok (p, v, a, st') ∧
      0 ≤ p ∧ p ≤ 127 ∧ 0 ≤ v ∧ v ≤ 127 :=
  c1_theorem (fun _ _ => (21, 108)) (by intro l t; refine ⟨?_, ?_, ?_, ?_⟩ <;> norm_num)
    initSafetyState "melody" 60 0 0 none (by decide) (by decide) (by decide) (by decide)

/-- Claim C5 (counterexample) — the claim bounds every aligned tick's shift by
`max_shift_ratio` (0.25) of one breath, *including* calls whose `(breath_index, tag)`
slot is already occupied. With the default manager (breath = 3840 ticks, max shift
960) and seven earlier notes in the `(0, "valley")` slot, the next melody note at
tick 0 is moved to tick 996: the slot allocator adds `7 * 60` ticks *after* the
clamp, so the shift 996 exceeds the claimed bound 960. -/
theorem c5_counterexample :
    (align_note (mk_breath_sync defaultTempoMap) c5_state "melody" 0 none).1.1 = 996 ∧
    pyTrunc ((mk_breath_sync defaultTempoMap).pcfg.max_shift_ratio
      * ((mk_breath_sync defaultTempoMap).breath_length_ticks : ℚ)) = 960 ∧
    ¬ ((996 : ℤ) - 0 ≤ 960) := by
  refine ⟨?_, ?_, by decide⟩
  · norm_num [align_note, mk_breath_sync, defaultTempoMap, default_layer_rules, c5_state,
      get_breath_position, get_phase_tag, get_target_phase, align_tick_within_breath,
      allocate_slot, pyTrunc, max_def, min_def, Int.zero_fdiv, Int.zero_fmod]
    simp
  · norm_num [mk_breath_sync, defaultTempoMap, pyTrunc, max_def, min_def]

/-- Claim C5 (amended) — for modes valley/peak/end with `tick ≥ 0`, the aligned tick
satisfies `tick - max_shift ≤ new_tick ≤ tick + max_shift + count * slot_size`, where
`count` is the number of earlier notes already allocated in the same
`(breath_index, mode)` slot and `slot_size = max(1, ⌊breath/slot_division⌋)`. The
clamp to `max_shift_ratio` of a breath is applied *before* the slot offset, so only
the first note of a slot is guaranteed the claimed bound; each further occupant can
push the shift one `slot_size` beyond it. -/
theorem c5_theorem (m : BreathSyncM) (st : BreathSyncState) (layer : String)
    (tick : ℤ) (mode : String) (hen : m.enabled = true) (ht : 0 ≤ tick)
    (hm : mode = "valley" ∨ mode = "peak" ∨ mode = "end")
    (hms : 0 ≤ pyTrunc (m.pcfg.max_shift_ratio * (m.breath_length_ticks : ℚ))) :
    tick - pyTrunc (m.pcfg.max_shift_ratio * (m.breath_length_ticks : ℚ))
        ≤ (align_note m st layer tick (some mode)).1.1 ∧
    (align_note m st layer tick (some mode)).1.1
        ≤ tick + pyTrunc (m.pcfg.max_shift_ratio * (m.breath_length_ticks : ℚ))
          + (st.slots_used ((get_breath_position m tick).1, mode) : ℤ)
            * max 1 (pyTrunc ((m.breath_length_ticks : ℚ)
                / ((max 1 m.slot_division_per_breath : ℤ) : ℚ))) := by
  have hoff : (0 : ℤ)
      ≤ (st.slots_used ((get_breath_position m tick).1, mode) : ℤ)
        * max 1 (pyTrunc ((m.breath_length_ticks : ℚ)
            / ((max 1 m.slot_division_per_breath : ℤ) : ℚ))) :=
    mul_nonneg (Int.natCast_nonneg _)
      (le_trans zero_le_one (le_max_left _ _))
  have hmode : ¬ ((if mode = "free" then "free" else mode) = "free"
      ∨ (if mode = "free" then "free" else mode) = "follow") := by
    rcases hm with h | h | h <;> subst h <;> decide
  have hif : (if mode = "free" then "free" else mode) = mode := by
    rcases hm with h | h | h <;> subst h <;> decide
  unfold align_note
  rw [if_neg (by simp [hen])]
  simp only [hif] at hmode ⊢
  rw [if_neg hmode]
  unfold align_tick_within_breath allocate_slot
  simp only []
  constructor <;>
    · split_ifs <;>
        first
          | omega
          | (rename_i habs _
             have := abs_le.mp (not_lt.mp habs)
             omega)
          | (rename_i habs
             have := abs_le.mp (not_lt.mp habs)
             omega)

/-- Witness for C5: the pulse layer at tick 100, mode `"peak"`, fresh allocator. -/
theorem c5_witness :
    100 - pyTrunc ((mk_breath_sync defaultTempoMap).pcfg.max_shift_ratio
      * ((mk_breath_sync defaultTempoMap).breath_length_ticks : ℚ))
        ≤ (align_note (mk_breath_sync defaultTempoMap) initBreathSyncState "pulse" 100
            (some "peak")).1.1 ∧
    (align_note (mk_breath_sync defaultTempoMap) initBreathSyncState "pulse" 100
        (some "peak")).1.1
        ≤ 100 + pyTrunc ((mk_breath_sync defaultTempoMap).pcfg.max_shift_ratio
            * ((mk_breath_sync defaultTempoMap).breath_length_ticks : ℚ))
          + (initBreathSyncState.slots_used
              ((get_breath_position (mk_breath_sync defaultTempoMap) 100).1, "peak") : ℤ)
            * max 1 (pyTrunc (((mk_breath_sync defaultTempoMap).breath_length_ticks : ℚ)
                / ((max 1 (mk_breath_sync defaultTempoMap).slot_division_per_breath : ℤ) : ℚ))) :=
  c5_theorem (mk_breath_sync defaultTempoMap) initBreathSyncState "pulse" 100 "peak"
    rfl (by decide) (Or.inr (Or.inl rfl))
    (by norm_num [mk_breath_sync, defaultTempoMap, pyTrunc, max_def, min_def])

theorem sb_loop_chain_cover (cm : String → Option String) (dur0 : ℤ)
    (data : List ProgItem) (total : ℤ) (hd : 1 ≤ dur0) :
    ∀ (n : ℕ) (current : ℤ) (idx : ℕ), (total - current).toNat ≤ n → current ≤ total →
      chain_cover current total (sb_loop cm dur0 data total current idx) := by
  intro n
  induction n with
  | zero =>
    intro current idx hn hle
    have hc : ¬ current < total := by omega
    rw [sb_loop, dif_neg hc]
    show current = total
    omega
  | succ n ih =>
    intro current idx hn hle
    by_cases hc : current < total
    · have hd2 : ¬ sb_dur dur0 total current ≤ 0 := by
        unfold sb_dur; split <;> omega
      have hd3 : current + sb_dur dur0 total current ≤ total := by
        unfold sb_dur; split <;> omega
      rw [sb_loop]
      simp only [dif_pos hc, dif_neg hd2]
      refine ⟨rfl, ?_, ?_⟩
      · show current < current + sb_dur dur0 total current
        omega
      · show chain_cover (current + sb_dur dur0 total current) total _
        exact ih (current + sb_dur dur0 total current) (idx + 1) (by omega) hd3
    · rw [sb_loop, dif_neg hc]
      show current = total
      omega

theorem chain_cover_last (total : ℤ) :
    ∀ (l : List Segment) (c : ℤ), chain_cover c total l → l ≠ [] →
      (l.getLast?).map Segment.end_tick = some total := by
  intro l
  induction l with
  | nil => intro c _ hne; exact absurd rfl hne
  | cons s rest ih =>
    intro c h _
    rcases rest with _ | ⟨t, rest'⟩
    · have he : s.end_tick = total := h.2.2
      rw [List.getLast?_singleton, Option.map_some', he]
    · rw [List.getLast?_cons_cons]
      exact ih s.end_tick h.2.2 (by simp)

theorem chain_cover_contiguous (total : ℤ) :
    ∀ (l : List Segment) (c : ℤ), chain_cover c total l →
      List.Chain' (fun a b => a.end_tick = b.start_tick) l := by
  intro l
  induction l with
  | nil => intro c _; exact List.chain'_nil
  | cons s rest ih =>
    intro c h
    rcases rest with _ | ⟨t, rest'⟩
    · simp
    · rw [List.chain'_cons]
      exact ⟨h.2.2.1.symm, ih s.end_tick h.2.2⟩

theorem chain_cover_mono (total : ℤ) :
    ∀ (l : List Segment) (c : ℤ), chain_cover c total l →
      List.Chain' (fun a b => a.start_tick ≤ b.start_tick) l := by
  intro l
  induction l with
  | nil => intro c _; exact List.chain'_nil
  | cons s rest ih =>
    intro c h
    rcases rest with _ | ⟨t, rest'⟩
    · simp
    · rw [List.chain'_cons]
      refine ⟨?_, ih s.end_tick h.2.2⟩
      have h1 : s.start_tick = c := h.1
      have h2 : c < s.end_tick := h.2.1
      have h3 : t.start_tick = s.end_tick := h.2.2.1
      omega

theorem chain_cover_map (total : ℤ) (f : Segment → Segment)
    (hf : ∀ s, (f s).start_tick = s.start_tick ∧ (f s).end_tick = s.end_tick) :
    ∀ (l : List Segment) (c : ℤ), chain_cover c total l →
      chain_cover c total (l.map f) := by
  intro l
  induction l with
  | nil => intro c h; exact h
  | cons s rest ih =>
    intro c h
    rw [List.map_cons]
    refine ⟨(hf s).1.trans h.1, ?_, ?_⟩
    · rw [(hf s).2]
      exact h.2.1
    · rw [(hf s).2]
      exact ih s.end_tick h.2.2

theorem apply_zen_arc_chain_cover (zen : List ZenPhaseDef) (total : ℤ)
    (l : List Segment) (c : ℤ) (h : chain_cover c total l) :
    chain_cover c total (apply_zen_arc zen total l) := by
  unfold apply_zen_arc
  split
  · exact h
  · refine chain_cover_map total _ ?_ l c h
    intro s
    exact ⟨rfl, rfl⟩

/-- Claim C7 — segment coverage: for every positive total tick count `N`, every
non-empty chord token list, and every configuration whose per-chord duration is at
least one tick, the segment list built by `StructureBuilder` (the progression loop
followed by the Zen-arc tagging pass) is non-empty, starts at tick 0, is contiguous
(each segment's `end_tick` equals the next segment's `start_tick`), has non-decreasing
`start_tick`s, and its last segment ends exactly at `N` (the final segment is
truncated to fit). -/
theorem c7_theorem (cm : String → Option String) (ppq : ℤ) (cycle_bars : ℚ)
    (breaths_raw : Option ℤ) (is_auto : Bool) (data : List ProgItem)
    (zen : List ZenPhaseDef) (N : ℤ) (hN : 0 < N) (hdata : data ≠ [])
    (hdur : 1 ≤ sb_dur0 ppq cycle_bars breaths_raw is_auto) :
    let segs := apply_zen_arc zen N
      (build_from_progression cm ppq cycle_bars breaths_raw is_auto data N)
    segs ≠ [] ∧
    (segs.head?).map Segment.start_tick = some 0 ∧
    List.Chain' (fun a b => a.end_tick = b.start_tick) segs ∧
    List.Chain' (fun a b => a.start_tick ≤ b.start_tick) segs ∧
    (segs.getLast?).map Segment.end_tick = some N := by
  intro segs
  have hcc : chain_cover 0 N segs := by
    apply apply_zen_arc_chain_cover
    unfold build_from_progression
    rw [if_neg (by simpa using hdata)]
    exact sb_loop_chain_cover cm _ data N hdur (N - 0).toNat 0 0 (by omega) (by omega)
  have hne : segs ≠ [] := by
    intro he
    rw [he] at hcc
    have h0 : (0 : ℤ) = N := hcc
    omega
  refine ⟨hne, ?_, chain_cover_contiguous N segs 0 hcc, chain_cover_mono N segs 0 hcc,
    chain_cover_last N segs 0 hcc hne⟩
  rcases segs with _ | ⟨s, rest⟩
  · exact absurd rfl hne
  · rw [List.head?_cons, Option.map_some']
    have h1 : s.start_tick = 0 := hcc.1
    rw [h1]

/-- Witness for C7: the auto two-chord major progression over 28800 ticks (the 60-second
scenario), default breaths and cycle. -/
theorem c7_witness :
    let segs := apply_zen_arc default_zen_phases 28800
      (build_from_progression (fun _ => none) 480 2 none true
        [ProgItem.pair "Imaj7" "Verse", ProgItem.pair "IVmaj7" "Verse"] 28800)
    segs ≠ [] ∧
    (segs.head?).map Segment.start_tick = some 0 ∧
    List.Chain' (fun a b => a.end_tick = b.start_tick) segs ∧
    List.Chain' (fun a b => a.start_tick ≤ b.start_tick) segs ∧
    (segs.getLast?).map Segment.end_tick = some 28800 :=
  c7_theorem (fun _ => none) 480 2 none true
    [ProgItem.pair "Imaj7" "Verse", ProgItem.pair "IVmaj7" "Verse"]
    default_zen_phases 28800 (by decide) (List.cons_ne_nil _ _)
    (by norm_num [sb_dur0, bars_to_ticks, pyTrunc])

theorem check_density_pruned (cfg : SafetyConfig) (w : ℤ) (evs : List ℤ) (t : ℤ) :
    (check_density cfg w evs t).2.2.2 = density_prune w evs t := by
  unfold check_density
  dsimp only
  split_ifs <;> rfl

theorem mix_enforce_default_shape (w : ℤ) (evs : List (ℤ × ℚ)) (v t : ℤ) :
    ∃ e, (mix_enforce defaultSafetyConfig w evs v t).2.2
      = evs.dropWhile (fun x => x.1 < t - w) ++ [(t, e)] := by
  unfold mix_enforce
  rw [if_neg (by norm_num [defaultSafetyConfig])]
  dsimp only
  split
  · exact ⟨_, rfl⟩
  · exact ⟨_, rfl⟩

/-- Claim C10 — frame effect of a rejected note: whenever `apply_note` (with a working
register range) returns `allow = false`, the per-voice last-accepted-velocity map is
unchanged, other voices' density lists are unchanged, and the rejected note adds no
density event — every later density count at any tick `t' ≥ tick` is exactly what it
would have been (the call only discards events that had already left the window) —
while the ShockGuard record for the voice **is** replaced by one at the rejected
note's tick and the MixEnergyGuard window **does** receive a new energy entry at that
tick, so a rejected note keeps influencing shock and mix-energy decisions. -/
theorem c10_theorem (f : String → ℤ → ℤ × ℤ) (st : SafetyState) (layer : String)
    (pitch velocity tick : ℤ) (meta : Option NoteMeta)
    (h : result_allow (apply_note defaultSafetyConfig defaultTempoMap ⟨some f⟩ st layer
        pitch velocity tick meta) = some false) :
    ∃ st', result_state (apply_note defaultSafetyConfig defaultTempoMap ⟨some f⟩ st layer
        pitch velocity tick meta) = some st' ∧
      st'.last_velocity = st.last_velocity ∧
      (∀ l, l ≠ layer → st'.density_events l = st.density_events l) ∧
      (∀ t', tick ≤ t' →
        density_count_at (density_window_ticks defaultSafetyConfig defaultTempoMap)
            (st'.density_events layer) t'
          = density_count_at (density_window_ticks defaultSafetyConfig defaultTempoMap)
            (st.density_events layer) t') ∧
      (∃ w, st'.shock_last layer = some (tick, w)) ∧
      (∃ e, st'.mix_events = st.mix_events.dropWhile
          (fun x => x.1 < tick - mix_window_ticks defaultSafetyConfig defaultTempoMap)
          ++ [(tick, e)]) := by
  simp only [apply_note, enforce_register, result_allow, result_state,
    Option.some.injEq] at h ⊢
  refine ⟨_, rfl, ?_, ?_, ?_, ?_, ?_⟩
  · rw [h]
    simp
  · intro l hl
    rw [h]
    simp [hl]
  · intro t' ht'
    rw [h]
    simp [check_density_pruned, density_count_at]
    rw [density_prune_prune _ _ _ _ ht']
  · simp only [shock_enforce]
    simp
  · simp only []
    exact mix_enforce_default_shape _ _ _ _

/-- Witness for C10: a melody note at tick 0 rejected by the density hard limit (32
already-accepted events in the window). -/
theorem c10_witness :
    ∃ st', result_state (apply_note defaultSafetyConfig defaultTempoMap
        ⟨some (fun _ _ => (21, 108))⟩ c10_state "melody" 60 80 0 none) = some st' ∧
      st'.last_velocity = c10_state.last_velocity ∧
      (∀ l, l ≠ "melody" → st'.density_events l = c10_state.density_events l) ∧
      (∀ t', (0 : ℤ) ≤ t' →
        density_count_at (density_window_ticks defaultSafetyConfig defaultTempoMap)
            (st'.density_events "melody") t'
          = density_count_at (density_window_ticks defaultSafetyConfig defaultTempoMap)
            (c10_state.density_events "melody") t') ∧
      (∃ w, st'.shock_last "melody" = some (0, w)) ∧
      (∃ e, st'.mix_events = c10_state.mix_events.dropWhile
          (fun x => x.1 < 0 - mix_window_ticks defaultSafetyConfig defaultTempoMap)
          ++ [(0, e)]) :=
  c10_theorem (fun _ _ => (21, 108)) c10_state "melody" 60 80 0 none (by
    norm_num [apply_note, enforce_register, enforce_pitch, enforce_velocity,
      defaultSafetyConfig, defaultTempoMap, tm_ppq, tm_cycle_sf, shock_enforce,
      shock_window_ticks, check_density, density_window_ticks, density_prune,
      ticks_per_breath, pyTrunc, pyRound, timbre_adjust, mix_enforce,
      mix_window_ticks, c10_state, result_allow, max_def, min_def, List.replicate,
      List.dropWhile])
